import Mathlib

/-!
Verification of the annotation/undo engine of QuickDraw-Screenshot.

The source is a tkinter application (`main.py`, `src/commands.py`,
`src/utils.py`).  The shallow embedding below models:

* the tk canvas as a list of retained items with fresh integer ids
  (`create_rectangle` / `create_line` / `create_polygon` / `create_text`
  append an item and return its id; `delete`, `move`, `coords`,
  `itemconfig`, `addtag_withtag` act on items by id or tag);
* `DrawCommand` / `TextCommand` from `src/commands.py`;
* the relevant methods of `QuickDrawScreenshot` from `main.py`
  (`undo`, `redo`, the commit discipline of `end_draw` and
  `end_text_entry`, `drag_selection`, `resize_selection`,
  `on_button_release`, `copy_to_clipboard`).

Coordinates are modelled as rationals.  The only irrational values the
program computes are the direction cosines `cos(atan2(dy,dx))` (and their
±π/6 rotations) used by the arrow renderers; inside the canvas model these
are abstracted as an arbitrary oracle `DirTrig` (every canvas-level theorem
below holds for every oracle), while the exact real-number geometry of the
very same source formulas is modelled separately over `ℝ` in the arrow
geometry section.
-/

/-- Colors are plain tk color strings in the source. -/
abbrev Color := String

/-- Canvas tags are strings. -/
abbrev Tag := String

/-- A rendered primitive on the tk canvas: the four `create_*` calls the
program uses. -/
inductive ShapeData
  | rect (x1 y1 x2 y2 : ℚ) (outline : Color) (width : ℕ)
  | line (x1 y1 x2 y2 : ℚ) (fill : Color) (width : ℕ)
  | polygon (pts : List (ℚ × ℚ)) (fill : Color) (outline : Option Color)
  | textItem (x y : ℚ) (txt : String) (fill : Color) (fontSize : ℕ) (width : ℚ)
  deriving DecidableEq, Repr

/-- One retained canvas item: its tk id, its primitive, and its tag list. -/
structure CItem where
  id : ℕ
  shape : ShapeData
  tags : List Tag
  deriving DecidableEq, Repr

/-- The tk canvas: a fresh-id counter and the retained items in creation
(stacking) order, oldest first. -/
structure Canvas where
  nextId : ℕ
  items : List CItem
  deriving DecidableEq, Repr

/-- A `create_*` call: appends an item with a fresh id and returns the id. -/
def Canvas.createItem (c : Canvas) (s : ShapeData) (tags : List Tag) : ℕ × Canvas :=
  (c.nextId, ⟨c.nextId + 1, c.items ++ [⟨c.nextId, s, tags⟩]⟩)

/-- `canvas.delete(id)`: removes the item with the given id. -/
def Canvas.deleteId (c : Canvas) (i : ℕ) : Canvas :=
  ⟨c.nextId, c.items.filter (fun it => it.id ≠ i)⟩

/-- `canvas.delete(tag)`: removes every item carrying the tag. -/
def Canvas.deleteTag (c : Canvas) (t : Tag) : Canvas :=
  ⟨c.nextId, c.items.filter (fun it => ¬ t ∈ it.tags)⟩

/-- Translate the coordinates of one primitive by `(dx, dy)` (the effect of
`canvas.move`). -/
def ShapeData.translate (s : ShapeData) (dx dy : ℚ) : ShapeData :=
  match s with
  | .rect x1 y1 x2 y2 o w => .rect (x1 + dx) (y1 + dy) (x2 + dx) (y2 + dy) o w
  | .line x1 y1 x2 y2 f w => .line (x1 + dx) (y1 + dy) (x2 + dx) (y2 + dy) f w
  | .polygon pts f o => .polygon (pts.map (fun p => (p.1 + dx, p.2 + dy))) f o
  | .textItem x y txt f fs w => .textItem (x + dx) (y + dy) txt f fs w

/-- `for item in canvas.find_withtag(t): canvas.move(item, dx, dy)`. -/
def Canvas.moveTag (c : Canvas) (t : Tag) (dx dy : ℚ) : Canvas :=
  ⟨c.nextId, c.items.map (fun it =>
    if t ∈ it.tags then { it with shape := it.shape.translate dx dy } else it)⟩

/-- Update the primitive of the item with id `i`. -/
def Canvas.mapItem (c : Canvas) (i : ℕ) (f : ShapeData → ShapeData) : Canvas :=
  ⟨c.nextId, c.items.map (fun it =>
    if it.id = i then { it with shape := f it.shape } else it)⟩

/-- `canvas.coords(i, x1, y1, x2, y2)` on a rectangle item. -/
def Canvas.setRectCoords (c : Canvas) (i : ℕ) (x1 y1 x2 y2 : ℚ) : Canvas :=
  c.mapItem i (fun s =>
    match s with
    | .rect _ _ _ _ o w => .rect x1 y1 x2 y2 o w
    | s => s)

/-- `canvas.coords(i, x, y)` on a text item. -/
def Canvas.setTextPos (c : Canvas) (i : ℕ) (x y : ℚ) : Canvas :=
  c.mapItem i (fun s =>
    match s with
    | .textItem _ _ txt f fs w => .textItem x y txt f fs w
    | s => s)

/-- `canvas.itemconfig(i, text=txt)` on a text item. -/
def Canvas.setTextContent (c : Canvas) (i : ℕ) (txt : String) : Canvas :=
  c.mapItem i (fun s =>
    match s with
    | .textItem x y _ f fs w => .textItem x y txt f fs w
    | s => s)

/-- `canvas.addtag_withtag(t, i)`: adds tag `t` to the item with id `i`
unless it already carries it (tk adds a tag only when absent). -/
def Canvas.addtagId (c : Canvas) (t : Tag) (i : ℕ) : Canvas :=
  ⟨c.nextId, c.items.map (fun it =>
    if it.id = i ∧ ¬ t ∈ it.tags then { it with tags := it.tags ++ [t] } else it)⟩

/-- `canvas.tag_raise(i)`: moves the item with id `i` to the top of the
stacking order. -/
def Canvas.raiseId (c : Canvas) (i : ℕ) : Canvas :=
  ⟨c.nextId, c.items.filter (fun it => it.id ≠ i) ++ c.items.filter (fun it => it.id = i)⟩

/-- `canvas.coords(i)` of a rectangle item. -/
def Canvas.coordsOfRect (c : Canvas) (i : ℕ) : Option (ℚ × ℚ × ℚ × ℚ) :=
  match c.items.find? (fun it => it.id = i) with
  | some it =>
    match it.shape with
    | .rect x1 y1 x2 y2 _ _ => some (x1, y1, x2, y2)
    | _ => none
  | none => none

/-- Every item id is below the fresh-id counter (true of every canvas the
program builds, since tk hands out increasing ids). -/
def Canvas.wfIds (c : Canvas) : Bool :=
  c.items.all (fun it => it.id < c.nextId)

/-- Whether some item carries the tag. -/
def Canvas.hasTag (c : Canvas) (t : Tag) : Bool :=
  c.items.any (fun it => t ∈ it.tags)

/-- The id-forgetting view of a list of items: what is actually visible
(primitive and tags, in stacking order). -/
def renderItems (l : List CItem) : List (ShapeData × List Tag) :=
  l.map (fun it => (it.shape, it.tags))

/-- The id-forgetting render of a canvas. -/
def Canvas.render (c : Canvas) : List (ShapeData × List Tag) :=
  renderItems c.items

/-- The items `c'` holds beyond those of `c` (the items a call appended). -/
def addedItems (c c' : Canvas) : List CItem :=
  c'.items.drop c.items.length

/-- The items of a canvas carrying the "drawing" tag (the committed and
in-progress annotation shapes). -/
def drawingItems (c : Canvas) : List CItem :=
  c.items.filter (fun it => "drawing" ∈ it.tags)

/-- The four tool names `set_tool` can install. -/
inductive Tool
  | move | rectangle | arrow | text
  deriving DecidableEq, Repr

/-- The `shape_id` attribute of a `DrawCommand`: `None` at construction
(`end_draw` passes `None`), a single tk id after drawing a rectangle, a
list (shaft, head) after drawing an arrow. -/
inductive ShapeRef
  | none
  | one (i : ℕ)
  | many (l : List ℕ)
  deriving DecidableEq, Repr

/-- `DrawCommand.__init__` state (src/commands.py lines 20-29). -/
structure DrawCmd where
  tool : Tool
  shape_id : ShapeRef
  x1 : ℚ
  y1 : ℚ
  x2 : ℚ
  y2 : ℚ
  color : Color
  thickness : ℕ
  deriving DecidableEq, Repr

/-- `TextCommand.__init__` state (src/commands.py lines 78-90). -/
structure TextCmd where
  text : String
  x : ℚ
  y : ℚ
  color : Color
  fontSize : ℕ
  width : ℚ
  height : ℚ
  text_id : Option ℕ
  deriving DecidableEq, Repr

/-- Oracle for the floating-point trigonometry of the arrow renderers:
`c dx dy` stands for `cos(atan2(dy, dx))`, `s` for the sine, and
`cm`/`sm`/`cp`/`sp` for cosine and sine of `atan2(dy, dx) ∓ π/6`.  The
canvas-level theorems hold for every oracle; the exact real-number values
of these formulas are studied in the arrow geometry section. -/
structure DirTrig where
  c : ℚ → ℚ → ℚ
  s : ℚ → ℚ → ℚ
  cm : ℚ → ℚ → ℚ
  sm : ℚ → ℚ → ℚ
  cp : ℚ → ℚ → ℚ
  sp : ℚ → ℚ → ℚ

/-- `DrawCommand.execute` (src/commands.py lines 31-67): draws a rectangle
or an arrow (shaft line shortened by `0.8 * arrow_head_size` along the
direction, plus a head polygon), overwriting `self.shape_id` with the new
id(s).  Any other tool leaves both the canvas and `shape_id` unchanged. -/
def DrawCmd.executeOn (T : DirTrig) (d : DrawCmd) (c : Canvas) : DrawCmd × Canvas :=
  match d.tool with
  | .rectangle =>
    let r := c.createItem (.rect d.x1 d.y1 d.x2 d.y2 d.color d.thickness) ["drawing"]
    ({ d with shape_id := .one r.1 }, r.2)
  | .arrow =>
    let headSize : ℚ := (max (d.thickness * 3) 8 : ℕ)
    let dx := d.x2 - d.x1
    let dy := d.y2 - d.y1
    let xDiff := headSize * (4/5) * T.c dx dy
    let yDiff := headSize * (4/5) * T.s dx dy
    let r1 := c.createItem
      (.line d.x1 d.y1 (d.x2 - xDiff) (d.y2 - yDiff) d.color d.thickness) ["drawing"]
    let r2 := r1.2.createItem
      (.polygon [(d.x2, d.y2),
                 (d.x2 - headSize * T.cm dx dy, d.y2 - headSize * T.sm dx dy),
                 (d.x2 - headSize * T.cp dx dy, d.y2 - headSize * T.sp dx dy)]
        d.color (some d.color)) ["drawing"]
    ({ d with shape_id := .many [r1.1, r2.1] }, r2.2)
  | _ => (d, c)

/-- `DrawCommand.undo` (src/commands.py lines 69-75): deletes each stored
id; with `shape_id = None` the call `canvas.delete(None)` passes the tag
string "None" to tk and so deletes the items tagged "None" (none, in any
canvas the program builds). -/
def DrawCmd.undoOn (d : DrawCmd) (c : Canvas) : Canvas :=
  match d.shape_id with
  | .none => c.deleteTag "None"
  | .one i => c.deleteId i
  | .many l => l.foldl Canvas.deleteId c

/-- `TextCommand.execute` (src/commands.py lines 92-99): creates the text
item (tags "text" and "drawing"), raises it, stores its id. -/
def TextCmd.executeOn (t : TextCmd) (c : Canvas) : TextCmd × Canvas :=
  let r := c.createItem (.textItem t.x t.y t.text t.color t.fontSize t.width)
    ["text", "drawing"]
  ({ t with text_id := some r.1 }, r.2.raiseId r.1)

/-- `TextCommand.undo` (src/commands.py lines 101-105): deletes the stored
id and resets it; `if self.text_id:` is truthy exactly when an id is stored
(tk ids start at 1). -/
def TextCmd.undoOn (t : TextCmd) (c : Canvas) : TextCmd × Canvas :=
  match t.text_id with
  | some i => ({ t with text_id := Option.none }, c.deleteId i)
  | Option.none => (t, c)

/-- A committed command: `DrawCommand` or `TextCommand`. -/
inductive Cmd
  | draw (d : DrawCmd)
  | text (t : TextCmd)
  deriving DecidableEq, Repr

/-- `command.execute()`. -/
def Cmd.executeOn (T : DirTrig) : Cmd → Canvas → Cmd × Canvas
  | .draw d, c => let r := d.executeOn T c; (.draw r.1, r.2)
  | .text t, c => let r := t.executeOn c; (.text r.1, r.2)

/-- `command.undo()` (also updates the command's own handle state, as the
Python objects are mutated in place). -/
def Cmd.undoOn : Cmd → Canvas → Cmd × Canvas
  | .draw d, c => (.draw d, d.undoOn c)
  | .text t, c => let r := t.undoOn c; (.text r.1, r.2)

/-- The rendering handle(s) currently stored by a command. -/
def Cmd.refIds : Cmd → List ℕ
  | .draw d =>
    match d.shape_id with
    | .none => []
    | .one i => [i]
    | .many l => l
  | .text t =>
    match t.text_id with
    | some i => [i]
    | Option.none => []

/-- Whether a command was never executed (its handle state is still the
construction-time default). -/
def Cmd.neverExecuted : Cmd → Bool
  | .draw d => d.shape_id = ShapeRef.none
  | .text t => t.text_id = Option.none

/-- Commands committed by the program carry a drawable tool: `on_release`
dispatches to `end_draw` only when the current tool is neither "text" nor
"move", and `set_tool` installs only the four toolbar tools. -/
def Cmd.toolOK : Cmd → Bool
  | .draw d => d.tool = Tool.rectangle ∨ d.tool = Tool.arrow
  | .text _ => true

/-- The immutable drawing parameters of a `DrawCommand` (everything except
the transient rendering handle). -/
structure DrawGeom where
  tool : Tool
  x1 : ℚ
  y1 : ℚ
  x2 : ℚ
  y2 : ℚ
  color : Color
  thickness : ℕ
  deriving DecidableEq, Repr

/-- The immutable parameters of a `TextCommand`. -/
structure TextGeom where
  text : String
  x : ℚ
  y : ℚ
  color : Color
  fontSize : ℕ
  width : ℚ
  height : ℚ
  deriving DecidableEq, Repr

/-- The stored geometry of a command: its immutable parameters, with the
transient rendering handle forgotten. -/
inductive CmdGeom
  | draw (g : DrawGeom)
  | text (g : TextGeom)
  deriving DecidableEq, Repr

/-- Project a command to its stored geometry. -/
def Cmd.geom : Cmd → CmdGeom
  | .draw d => .draw ⟨d.tool, d.x1, d.y1, d.x2, d.y2, d.color, d.thickness⟩
  | .text t => .text ⟨t.text, t.x, t.y, t.color, t.fontSize, t.width, t.height⟩

/-- The tag re-add step of `end_draw` (main.py lines 872-877): adds the
"drawing" tag to the handle(s) `execute` returned.  With a `None` handle
tk receives the tag string "None" and matches no item. -/
def Canvas.addtagRef (c : Canvas) (t : Tag) : ShapeRef → Canvas
  | .none => c
  | .one i => c.addtagId t i
  | .many l => l.foldl (fun acc i => acc.addtagId t i) c

/-- A raster image: the captured screenshot or a crop of it.  Pixel
contents are opaque to the annotation engine; PIL's `crop` always returns
an image of exactly the requested box. -/
inductive Img
  | capture (n : ℕ)
  | cropBox (i : Img) (x1 y1 x2 y2 : ℚ)
  deriving DecidableEq, Repr

/-- The live text-entry widget (`finalize_text_box` places a `ttk.Text`
and `end_text_entry` later reads back its position, size and content). -/
structure TextEntry where
  x : ℚ
  y : ℚ
  width : ℚ
  height : ℚ
  content : String
  deriving DecidableEq, Repr

/-- The session state of `QuickDrawScreenshot` relevant to the annotation
engine: the live canvas, the undo/redo stacks, the drawing-area rectangle,
the captured image, the tool configuration, and the transient interaction
state. -/
structure AppState where
  canvas : Canvas
  undo_stack : List Cmd
  redo_stack : List Cmd
  drawing_area : ℚ × ℚ × ℚ × ℚ
  screen_width : ℚ
  screen_height : ℚ
  full_screenshot : Img
  current_color : Color
  current_tool : Tool
  line_thickness : ℕ
  font_size : ℕ
  is_drawing_mode : Bool
  selection_rect : ℕ
  resize_handles : List ℕ
  overlay_ids : List ℕ
  dimension_text : ℕ
  text_entry : Option TextEntry
  start_pos : Option (ℚ × ℚ)
  drag_start : Option (ℚ × ℚ)
  resizing : Option ℕ
  dragging : Bool
  deriving DecidableEq, Repr

/-- The dimension readout string `f"{width}x{height}"`. -/
def dimLabel (w h : ℚ) : String :=
  toString w ++ "x" ++ toString h

/-- `update_resize_handles` (main.py lines 759-769): re-centres each of
the four 10-px corner handles on the corners of the rectangle. -/
def updateHandles (c : Canvas) (handles : List ℕ) (x1 y1 x2 y2 : ℚ) : Canvas :=
  (List.zip handles [(x1, y1), (x2, y1), (x2, y2), (x1, y2)]).foldl
    (fun acc p =>
      acc.setRectCoords p.1 (p.2.1 - 5) (p.2.2 - 5) (p.2.1 + 5) (p.2.2 + 5)) c

/-- The canvas effect of `update_overlay` (main.py lines 539-557): moves
the four masking panels around the rectangle and re-positions and rewrites
the dimension readout. -/
def AppState.update_overlay (s : AppState) (c : Canvas) (x1 y1 x2 y2 : ℚ) : Canvas :=
  let boxes : List (ℚ × ℚ × ℚ × ℚ) :=
    [(0, 0, s.screen_width, y1),
     (0, y1, x1, y2),
     (x2, y1, s.screen_width, y2),
     (0, y2, s.screen_width, s.screen_height)]
  let c1 := (List.zip s.overlay_ids boxes).foldl
    (fun acc p => acc.setRectCoords p.1 p.2.1 p.2.2.1 p.2.2.2.1 p.2.2.2.2) c
  let c2 := c1.setTextPos s.dimension_text ((x1 + x2) / 2) ((y1 + y2) / 2)
  c2.setTextContent s.dimension_text (dimLabel (x2 - x1) (y2 - y1))

/-- The commit discipline of the program: execute the command, push it on
the undo stack, clear the redo stack.  For a `DrawCommand` this is the
core of `end_draw` (main.py lines 854-882: delete the temporary preview,
execute, re-add the "drawing" tag to the returned handle(s), push, clear,
reset the stroke start); for a `TextCommand` it is the commit branch of
`end_text_entry` (main.py lines 943-965: execute, push, clear, destroy the
entry widget and its dashed box). -/
def AppState.commit (T : DirTrig) (s : AppState) (cmd : Cmd) : AppState :=
  match cmd with
  | .draw d =>
    let c0 := s.canvas.deleteTag "temp_shape"
    let r := d.executeOn T c0
    let c2 := r.2.addtagRef "drawing" r.1.shape_id
    { s with canvas := c2,
             undo_stack := s.undo_stack ++ [Cmd.draw r.1],
             redo_stack := [],
             start_pos := Option.none }
  | .text t =>
    let r := t.executeOn s.canvas
    { s with canvas := r.2.deleteTag "text_box",
             undo_stack := s.undo_stack ++ [Cmd.text r.1],
             redo_stack := [],
             text_entry := Option.none }

/-- `undo` (main.py lines 974-981): no-op on an empty undo stack, else pop
the most recent command, run its `undo`, push it on the redo stack, delete
any temporary preview shape and reset the stroke start. -/
def AppState.undo (s : AppState) : AppState :=
  match s.undo_stack.getLast? with
  | Option.none => s
  | some cmd =>
    let r := cmd.undoOn s.canvas
    { s with canvas := r.2.deleteTag "temp_shape",
             undo_stack := s.undo_stack.dropLast,
             redo_stack := s.redo_stack ++ [r.1],
             start_pos := Option.none }

/-- `redo` (main.py lines 983-990): no-op on an empty redo stack, else pop
the most recent undone command, re-execute it, push it back on the undo
stack, delete any temporary preview shape and reset the stroke start. -/
def AppState.redo (T : DirTrig) (s : AppState) : AppState :=
  match s.redo_stack.getLast? with
  | Option.none => s
  | some cmd =>
    let r := cmd.executeOn T s.canvas
    { s with canvas := r.2.deleteTag "temp_shape",
             undo_stack := s.undo_stack ++ [r.1],
             redo_stack := s.redo_stack.dropLast,
             start_pos := Option.none }

/-- `end_text_entry` (main.py lines 943-965): if an entry widget is live,
commit a `TextCommand` exactly when its final content is non-empty, then
destroy the widget and delete the dashed text box. -/
def AppState.end_text_entry (s : AppState) : AppState :=
  match s.text_entry with
  | Option.none => s
  | some e =>
    if e.content ≠ "" then
      s.commit (DirTrig.mk (fun _ _ => 0) (fun _ _ => 0) (fun _ _ => 0)
          (fun _ _ => 0) (fun _ _ => 0) (fun _ _ => 0))
        (Cmd.text ⟨e.content, e.x, e.y, s.current_color, s.font_size,
          e.width, e.height, Option.none⟩)
    else
      { s with canvas := s.canvas.deleteTag "text_box",
               text_entry := Option.none }

/-- The per-axis clamp of `drag_selection` (main.py lines 729-736): the
proposed delta is replaced so the low edge never crosses 0 and the high
edge never crosses the screen bound. -/
def clampDelta (lo hi bound d : ℚ) : ℚ :=
  if lo + d < 0 then -lo
  else if hi + d > bound then bound - hi
  else d

/-- `drag_selection` (main.py lines 716-757): clamp the pointer delta per
axis, move the selection rectangle, move every "drawing"-tagged item by
the clamped delta, re-centre the handles, update the drawing area and the
overlay, and remember the new drag origin.  The committed commands'
stored coordinates are not touched. -/
def AppState.drag_selection (s : AppState) (x y : ℚ) : AppState :=
  if ¬ s.dragging then s
  else
    match s.drag_start with
    | Option.none => s
    | some p =>
      let dx0 := x - p.1
      let dy0 := y - p.2
      let x1 := s.drawing_area.1
      let y1 := s.drawing_area.2.1
      let x2 := s.drawing_area.2.2.1
      let y2 := s.drawing_area.2.2.2
      let dx := clampDelta x1 x2 s.screen_width dx0
      let dy := clampDelta y1 y2 s.screen_height dy0
      let nx1 := x1 + dx
      let ny1 := y1 + dy
      let nx2 := x2 + dx
      let ny2 := y2 + dy
      let c1 := s.canvas.setRectCoords s.selection_rect nx1 ny1 nx2 ny2
      let c2 := c1.moveTag "drawing" dx dy
      let c3 := updateHandles c2 s.resize_handles nx1 ny1 nx2 ny2
      let c4 := s.update_overlay c3 nx1 ny1 nx2 ny2
      { s with canvas := c4,
               drawing_area := (nx1, ny1, nx2, ny2),
               drag_start := some (x, y) }

/-- `resize_selection` (main.py lines 771-798): read the selection
rectangle's canvas coordinates, move the corner selected by
`self.resizing` to the pointer, renormalise, and update the selection
rectangle, the handles, the overlay, the drawing area and the dimension
readout.  Commands and committed shapes are not touched. -/
def AppState.resize_selection (s : AppState) (x y : ℚ) : AppState :=
  match s.canvas.coordsOfRect s.selection_rect with
  | Option.none => s
  | some q =>
    let p :=
      match s.resizing with
      | some 0 => (x, y, q.2.2.1, q.2.2.2)
      | some 1 => (q.1, y, x, q.2.2.2)
      | some 2 => (q.1, q.2.1, x, y)
      | some 3 => (x, q.2.1, q.2.2.1, y)
      | _ => q
    let nx1 := min p.1 p.2.2.1
    let nx2 := max p.1 p.2.2.1
    let ny1 := min p.2.1 p.2.2.2
    let ny2 := max p.2.1 p.2.2.2
    let c1 := s.canvas.setRectCoords s.selection_rect nx1 ny1 nx2 ny2
    let c2 := updateHandles c1 s.resize_handles nx1 ny1 nx2 ny2
    let c3 := s.update_overlay c2 nx1 ny1 nx2 ny2
    let c4 := c3.setTextContent s.dimension_text
      (dimLabel (abs (nx2 - nx1)) (abs (ny2 - ny1)))
    let c5 := c4.setTextPos s.dimension_text ((nx1 + nx2) / 2) ((ny1 + ny2) / 2)
    { s with canvas := c5, drawing_area := (nx1, ny1, nx2, ny2) }

/-- The selection box fixed by `on_button_release` (main.py lines
559-575): a release exactly at the press point is nudged one pixel right
and down, then the box is normalised.  Event coordinates are integers. -/
def on_button_release_box (sx sy ex ey : ℤ) : ℤ × ℤ × ℤ × ℤ :=
  let p := if ex = sx ∧ ey = sy then (ex + 1, ey + 1) else (ex, ey)
  (min sx p.1, min sy p.2, max sx p.1, max sy p.2)

/-- A primitive drawn onto the export bitmap by `copy_to_clipboard`
(PIL `ImageDraw` calls). -/
inductive ExportPrim
  | rect (x1 y1 x2 y2 : ℚ) (outline : Color) (width : ℕ)
  | line (x1 y1 x2 y2 : ℚ) (fill : Color) (width : ℕ)
  | poly (pts : List (ℚ × ℚ)) (fill : Color)
  | textDraw (x y : ℚ) (txt : String) (color : Color) (fontSize : ℕ)
  deriving DecidableEq, Repr

/-- The composited export bitmap: the padded canvas size, the crop of the
screenshot pasted at the stroke offset, and the primitives drawn on top in
order (the 1-px border rectangle first, then the committed commands oldest
first).  Two exports are byte-identical exactly when these data agree
(font rasterisation is environment-level and outside the model). -/
structure ExportImage where
  size : ℚ × ℚ
  base : Img
  paste_at : ℚ × ℚ
  prims : List ExportPrim
  deriving DecidableEq, Repr

/-- `draw_pil_arrow` (src/utils.py lines 19-41) as export primitives: the
shaft shortened by the full head length plus the filled head triangle with
base half-width `max(2w, 6)`. -/
def pilArrowPrims (T : DirTrig) (x1 y1 x2 y2 : ℚ) (fill : Color) (w : ℕ) :
    List ExportPrim :=
  let arrowLength : ℚ := (max (w * 3) 8 : ℕ)
  let arrowWidth : ℚ := (max (w * 2) 6 : ℕ)
  let dx := x2 - x1
  let dy := y2 - y1
  let sinA := T.s dx dy
  let cosA := T.c dx dy
  let xDiff := arrowLength * cosA
  let yDiff := arrowLength * sinA
  [.line x1 y1 (x2 - xDiff) (y2 - yDiff) fill w,
   .poly [(x2, y2),
          (x2 - xDiff + arrowWidth * sinA, y2 - yDiff - arrowWidth * cosA),
          (x2 - xDiff - arrowWidth * sinA, y2 - yDiff + arrowWidth * cosA)] fill]

/-- The primitives one committed command contributes to the export
(main.py lines 1010-1034): coordinates are the stored ones translated by
`(-bbox.x1 + strokeWidth, -bbox.y1 + strokeWidth)`; rectangles are
normalised first, arrows keep their orientation, text keeps its anchor.
A `DrawCommand` whose tool is neither "rectangle" nor "arrow" draws
nothing.  The text font is resolved from the environment (meiryo.ttc, or
PIL's default) at the stored size. -/
def exportPrimsOf (T : DirTrig) (bx1 by1 : ℚ) (strokeWidth : ℚ) :
    Cmd → List ExportPrim
  | .draw d =>
    let ax1 := d.x1 - bx1 + strokeWidth
    let ay1 := d.y1 - by1 + strokeWidth
    let ax2 := d.x2 - bx1 + strokeWidth
    let ay2 := d.y2 - by1 + strokeWidth
    match d.tool with
    | .rectangle =>
      [.rect (min ax1 ax2) (min ay1 ay2) (max ax1 ax2) (max ay1 ay2)
        d.color d.thickness]
    | .arrow => pilArrowPrims T ax1 ay1 ax2 ay2 d.color d.thickness
    | _ => []
  | .text t =>
    [.textDraw (t.x - bx1 + strokeWidth) (t.y - by1 + strokeWidth)
      t.text t.color t.fontSize]

/-- `copy_to_clipboard` (main.py lines 992-1038) up to the clipboard
hand-off: `None` when not in drawing mode, else the flattened bitmap:
the screenshot cropped to the normalised drawing area, pasted with a 1-px
stroke border, a border rectangle in the current annotation color, and
every command of the undo stack re-rendered in commit order. -/
def AppState.copy_to_clipboard (T : DirTrig) (s : AppState) : Option ExportImage :=
  if s.is_drawing_mode = false then Option.none
  else
    let x1 := s.drawing_area.1
    let y1 := s.drawing_area.2.1
    let x2 := s.drawing_area.2.2.1
    let y2 := s.drawing_area.2.2.2
    let bx1 := min x1 x2
    let by1 := min y1 y2
    let bx2 := max x1 x2
    let by2 := max y1 y2
    let w := bx2 - bx1
    let h := by2 - by1
    let strokeWidth : ℚ := 1
    let border : ExportPrim :=
      .rect 0 0 (w + 2 * strokeWidth - 1) (h + 2 * strokeWidth - 1)
        s.current_color 1
    some
      { size := (w + 2 * strokeWidth, h + 2 * strokeWidth),
        base := Img.cropBox s.full_screenshot bx1 by1 bx2 by2,
        paste_at := (strokeWidth, strokeWidth),
        prims := border :: s.undo_stack.flatMap (exportPrimsOf T bx1 by1 strokeWidth) }

/-- The head length of every arrow renderer: `max(thickness * 3, 8)`. -/
def arrowHeadSize (thickness : ℕ) : ℕ :=
  max (thickness * 3) 8

/-- Exact value of `cos(atan2(dy, dx))`, namely `dx / hypot(dx, dy)`
(for the degenerate zero vector the division-by-zero convention gives 0,
matching `atan2(0,0) = 0` only up to that convention; no claim below
evaluates it there). -/
noncomputable def dirCos (dx dy : ℝ) : ℝ :=
  dx / Real.sqrt (dx ^ 2 + dy ^ 2)

/-- Exact value of `sin(atan2(dy, dx))`. -/
noncomputable def dirSin (dx dy : ℝ) : ℝ :=
  dy / Real.sqrt (dx ^ 2 + dy ^ 2)

/-- Exact value of `cos(atan2(dy, dx) - π/6)`, expanded by the angle
subtraction formula with `cos(π/6) = √3/2`, `sin(π/6) = 1/2`. -/
noncomputable def dirCosM (dx dy : ℝ) : ℝ :=
  dirCos dx dy * (Real.sqrt 3 / 2) + dirSin dx dy * (1 / 2)

/-- Exact value of `sin(atan2(dy, dx) - π/6)`. -/
noncomputable def dirSinM (dx dy : ℝ) : ℝ :=
  dirSin dx dy * (Real.sqrt 3 / 2) - dirCos dx dy * (1 / 2)

/-- Exact value of `cos(atan2(dy, dx) + π/6)`. -/
noncomputable def dirCosP (dx dy : ℝ) : ℝ :=
  dirCos dx dy * (Real.sqrt 3 / 2) - dirSin dx dy * (1 / 2)

/-- Exact value of `sin(atan2(dy, dx) + π/6)`. -/
noncomputable def dirSinP (dx dy : ℝ) : ℝ :=
  dirSin dx dy * (Real.sqrt 3 / 2) + dirCos dx dy * (1 / 2)

/-- Shaft of the interactive arrow, `draw_arrow` (main.py lines 831-843):
from `(x1, y1)` to the point offset from `(x2, y2)` by the full head
length along the stroke direction. -/
noncomputable def interactiveArrowShaft (x1 y1 x2 y2 : ℝ) (t : ℕ) :
    (ℝ × ℝ) × (ℝ × ℝ) :=
  let L : ℝ := (arrowHeadSize t : ℕ)
  ((x1, y1),
   (x2 - L * dirCos (x2 - x1) (y2 - y1), y2 - L * dirSin (x2 - x1) (y2 - y1)))

/-- Head polygon of the interactive arrow, `draw_arrow` (main.py lines
845-852): apex at `(x2, y2)`, base corners offset from the shortened
shaft endpoint by `±2·thickness` along the normal of the direction. -/
noncomputable def interactiveArrowHead (x1 y1 x2 y2 : ℝ) (t : ℕ) :
    (ℝ × ℝ) × (ℝ × ℝ) × (ℝ × ℝ) :=
  let L : ℝ := (arrowHeadSize t : ℕ)
  let dx := x2 - x1
  let dy := y2 - y1
  let xDiff := L * dirCos dx dy
  let yDiff := L * dirSin dx dy
  ((x2, y2),
   (x2 - xDiff + t * 2 * dirSin dx dy, y2 - yDiff - t * 2 * dirCos dx dy),
   (x2 - xDiff - t * 2 * dirSin dx dy, y2 - yDiff + t * 2 * dirCos dx dy))

/-- Shaft of the committed-command arrow, `DrawCommand.execute`
(src/commands.py lines 39-52): the shaft ends `0.8 · head length` short
of `(x2, y2)` along the stroke direction. -/
noncomputable def commandArrowShaft (x1 y1 x2 y2 : ℝ) (t : ℕ) :
    (ℝ × ℝ) × (ℝ × ℝ) :=
  let A : ℝ := (arrowHeadSize t : ℕ)
  let dx := x2 - x1
  let dy := y2 - y1
  ((x1, y1),
   (x2 - A * (8 / 10) * dirCos dx dy, y2 - A * (8 / 10) * dirSin dx dy))

/-- Head polygon of the committed-command arrow, `DrawCommand.execute`
(src/commands.py lines 54-62): apex at `(x2, y2)` and base corners at
distance `head length` in the directions `angle ∓ π/6`. -/
noncomputable def commandArrowHead (x1 y1 x2 y2 : ℝ) (t : ℕ) :
    (ℝ × ℝ) × (ℝ × ℝ) × (ℝ × ℝ) :=
  let A : ℝ := (arrowHeadSize t : ℕ)
  let dx := x2 - x1
  let dy := y2 - y1
  ((x2, y2),
   (x2 - A * dirCosM dx dy, y2 - A * dirSinM dx dy),
   (x2 - A * dirCosP dx dy, y2 - A * dirSinP dx dy))

/-- Collinearity of a point with the segment from `(x1,y1)` to `(x2,y2)`:
the cross product of the two difference vectors vanishes. -/
def onShaftLine (x1 y1 x2 y2 px py : ℝ) : Prop :=
  (px - x2) * (y2 - y1) - (py - y2) * (x2 - x1) = 0

/-- Orthogonality of a vector to the stroke direction. -/
def perpToShaft (x1 y1 x2 y2 vx vy : ℝ) : Prop :=
  vx * (x2 - x1) + vy * (y2 - y1) = 0

/-- The all-zero trigonometry oracle, used to evaluate concrete states in
which no arrow is ever drawn (its value is then irrelevant). -/
def T0 : DirTrig :=
  ⟨fun _ _ => 0, fun _ _ => 0, fun _ _ => 0, fun _ _ => 0,
   fun _ _ => 0, fun _ _ => 0⟩

/-- A concrete drawing-mode canvas as `setup_drawing_mode` leaves it: the
selection rectangle (id 1), the four overlay panels (ids 2-5), the
dimension readout (id 6) and the four corner handles (ids 7-10). -/
def demoCanvas : Canvas :=
  ⟨11,
   [⟨1, .rect 0 0 100 100 "#007bff" 2, []⟩,
    ⟨2, .rect 0 0 200 0 "black" 1, ["overlay"]⟩,
    ⟨3, .rect 0 0 0 100 "black" 1, ["overlay"]⟩,
    ⟨4, .rect 100 0 200 100 "black" 1, ["overlay"]⟩,
    ⟨5, .rect 0 100 200 200 "black" 1, ["overlay"]⟩,
    ⟨6, .textItem 50 50 "100x100" "white" 10 0, ["dimensions"]⟩,
    ⟨7, .rect (-5) (-5) 5 5 "white" 1, ["handle0"]⟩,
    ⟨8, .rect 95 (-5) 105 5 "white" 1, ["handle1"]⟩,
    ⟨9, .rect 95 95 105 105 "white" 1, ["handle2"]⟩,
    ⟨10, .rect (-5) 95 5 105 "white" 1, ["handle3"]⟩]⟩

/-- A concrete drawing-mode session: drawing area (0,0)-(100,100) on a
200x200 screen, red pen of width 2, a move-drag in progress that started
at (70,70). -/
def demoState : AppState where
  canvas := demoCanvas
  undo_stack := []
  redo_stack := []
  drawing_area := (0, 0, 100, 100)
  screen_width := 200
  screen_height := 200
  full_screenshot := Img.capture 0
  current_color := "red"
  current_tool := Tool.move
  line_thickness := 2
  font_size := 12
  is_drawing_mode := true
  selection_rect := 1
  resize_handles := [7, 8, 9, 10]
  overlay_ids := [2, 3, 4, 5]
  dimension_text := 6
  text_entry := Option.none
  start_pos := Option.none
  drag_start := some (70, 70)
  resizing := Option.none
  dragging := true

/-- The committed rectangle command of the scenarios:
`RectShape((10,10),(50,50), red, 2)` as `end_draw` constructs it. -/
def demoRectCmd : Cmd :=
  Cmd.draw ⟨Tool.rectangle, ShapeRef.none, 10, 10, 50, 50, "red", 2⟩

/-- A session identical to `demoState` in the captured image, the drawing
area, the committed commands and the current color, but differing in other
session state (tool, pen width, font size, drag state). -/
def demoStateOther : AppState :=
  { demoState with
      current_tool := Tool.arrow
      line_thickness := 9
      font_size := 55
      dragging := false
      drag_start := Option.none
      resizing := some 2 }

/-- A session differing from `demoState` only in the current annotation
color. -/
def demoStateBlue : AppState :=
  { demoState with current_color := "blue" }

/-- The demo session after committing `demoRectCmd` through the
`end_draw` discipline: the rectangle is rendered as item 11 and the
command (now holding handle 11) is the whole undo stack. -/
def demoCommitted : AppState :=
  { demoState with
      canvas :=
        ⟨12,
         [⟨1, .rect 0 0 100 100 "#007bff" 2, []⟩,
          ⟨2, .rect 0 0 200 0 "black" 1, ["overlay"]⟩,
          ⟨3, .rect 0 0 0 100 "black" 1, ["overlay"]⟩,
          ⟨4, .rect 100 0 200 100 "black" 1, ["overlay"]⟩,
          ⟨5, .rect 0 100 200 200 "black" 1, ["overlay"]⟩,
          ⟨6, .textItem 50 50 "100x100" "white" 10 0, ["dimensions"]⟩,
          ⟨7, .rect (-5) (-5) 5 5 "white" 1, ["handle0"]⟩,
          ⟨8, .rect 95 (-5) 105 5 "white" 1, ["handle1"]⟩,
          ⟨9, .rect 95 95 105 105 "white" 1, ["handle2"]⟩,
          ⟨10, .rect (-5) 95 5 105 "white" 1, ["handle3"]⟩,
          ⟨11, .rect 10 10 50 50 "red" 2, ["drawing"]⟩]⟩,
      undo_stack := [Cmd.draw ⟨Tool.rectangle, ShapeRef.one 11, 10, 10, 50, 50, "red", 2⟩] }

/-- The demo session after the committed rectangle and a move-drag of the
pointer from (70,70) to (120,70): the clamped delta is (50,0), the
selection, overlay, handles and the rendered rectangle all move 50 px
right, the drawing area becomes (50,0)-(150,100) — but the stored
coordinates of the committed command are untouched. -/
def demoDragged : AppState :=
  { demoState with
      canvas :=
        ⟨12,
         [⟨1, .rect 50 0 150 100 "#007bff" 2, []⟩,
          ⟨2, .rect 0 0 200 0 "black" 1, ["overlay"]⟩,
          ⟨3, .rect 0 0 50 100 "black" 1, ["overlay"]⟩,
          ⟨4, .rect 150 0 200 100 "black" 1, ["overlay"]⟩,
          ⟨5, .rect 0 100 200 200 "black" 1, ["overlay"]⟩,
          ⟨6, .textItem 100 50 (dimLabel 100 100) "white" 10 0, ["dimensions"]⟩,
          ⟨7, .rect 45 (-5) 55 5 "white" 1, ["handle0"]⟩,
          ⟨8, .rect 145 (-5) 155 5 "white" 1, ["handle1"]⟩,
          ⟨9, .rect 145 95 155 105 "white" 1, ["handle2"]⟩,
          ⟨10, .rect 45 95 55 105 "white" 1, ["handle3"]⟩,
          ⟨11, .rect 60 10 100 50 "red" 2, ["drawing"]⟩]⟩,
      undo_stack := [Cmd.draw ⟨Tool.rectangle, ShapeRef.one 11, 10, 10, 50, 50, "red", 2⟩],
      drawing_area := (50, 0, 150, 100),
      drag_start := some (120, 70) }

/-- The canvas cleanup a commit performs besides executing the command:
`end_draw` deletes the temporary preview shape, `end_text_entry` deletes
the dashed text box. -/
def commitCleanup : Cmd → Canvas → Canvas
  | .draw _, c => c.deleteTag "temp_shape"
  | .text _, c => c.deleteTag "text_box"

/-- The canvas ids of the selection chrome: the selection rectangle, the
dimension readout, the four corner handles and the four overlay panels. -/
def AppState.uiIds (s : AppState) : List ℕ :=
  s.selection_rect :: s.dimension_text :: (s.resize_handles ++ s.overlay_ids)

/-- No committed or in-progress annotation item shares a canvas id with
the selection chrome (true of every session the program builds: the
chrome is created before drawing begins and ids are fresh). -/
def AppState.uiDisjoint (s : AppState) : Bool :=
  s.canvas.items.all (fun it => ¬ ("drawing" ∈ it.tags ∧ it.id ∈ s.uiIds))

/-- A canvas has no item with tag `t` iff every item's tag list misses `t`. -/
theorem hasTag_false_iff (c : Canvas) (t : Tag) :
    c.hasTag t = false ↔ ∀ it ∈ c.items, ¬ t ∈ it.tags := by
  simp [Canvas.hasTag]

/-- Deleting by a tag nobody carries is a no-op. -/
theorem deleteTag_of_not_hasTag (c : Canvas) (t : Tag) (h : c.hasTag t = false) :
    c.deleteTag t = c := by
  obtain ⟨n, items⟩ := c
  rw [hasTag_false_iff] at h
  simp only [Canvas.deleteTag, Canvas.mk.injEq, true_and]
  exact List.filter_eq_self.mpr (fun it hit => by simpa using h it hit)

/-- Removing by an id nobody carries is the identity on the item list. -/
theorem filter_id_ne_eq_self (items : List CItem) (i : ℕ)
    (h : ∀ it ∈ items, it.id ≠ i) :
    items.filter (fun it => it.id ≠ i) = items :=
  List.filter_eq_self.mpr (fun it hit => by simpa using h it hit)

/-- Re-adding a tag is a no-op when every item with the target id already
carries it. -/
theorem addtagId_noop (c : Canvas) (t : Tag) (i : ℕ)
    (h : ∀ it ∈ c.items, it.id = i → t ∈ it.tags) :
    c.addtagId t i = c := by
  obtain ⟨n, items⟩ := c
  simp only [Canvas.addtagId, Canvas.mk.injEq, true_and]
  have : ∀ it ∈ items,
      (if it.id = i ∧ ¬ t ∈ it.tags then { it with tags := it.tags ++ [t] } else it) = it := by
    intro it hit
    rw [if_neg]
    rintro ⟨h1, h2⟩
    exact h2 (h it hit h1)
  calc items.map _ = items.map id := List.map_congr_left this
  _ = items := List.map_id items

/-- C2: committing a new command always clears the redo stack: for every
scene state, after undo() followed by commit(newCommand) the redo stack is
empty, and a subsequent redo() is a no-op, changing neither the stacks nor
the rendered shapes (it returns the state unchanged). -/
theorem C2_commit_clears_redo (T : DirTrig) (s : AppState) (cmd : Cmd) :
    ((s.undo).commit T cmd).redo_stack = [] ∧
    AppState.redo T ((s.undo).commit T cmd) = (s.undo).commit T cmd := by
  cases cmd <;> exact ⟨rfl, rfl⟩

/-- The per-axis clamp keeps the low edge at or above 0. -/
theorem clampDelta_lo (lo hi bound d : ℚ) (h1 : 0 ≤ lo) (h2 : hi ≤ bound) :
    0 ≤ lo + clampDelta lo hi bound d := by
  unfold clampDelta
  split_ifs <;> linarith

/-- The per-axis clamp keeps the high edge at or below the bound. -/
theorem clampDelta_hi (lo hi bound d : ℚ) (h1 : 0 ≤ lo) (h2 : hi ≤ bound) :
    hi + clampDelta lo hi bound d ≤ bound := by
  unfold clampDelta
  split_ifs <;> linarith

/-- C7: for every drag of a drawing area that lies within the screen, the
resulting drawing-area rectangle still satisfies `0 ≤ x1`, `0 ≤ y1`,
`x2 ≤ screenWidth`, `y2 ≤ screenHeight`; the delta is clamped
independently per axis by `clampDelta`. -/
theorem C7_drag_stays_on_screen (s : AppState) (x y : ℚ)
    (h1 : 0 ≤ s.drawing_area.1) (h2 : 0 ≤ s.drawing_area.2.1)
    (h3 : s.drawing_area.2.2.1 ≤ s.screen_width)
    (h4 : s.drawing_area.2.2.2 ≤ s.screen_height) :
    0 ≤ (s.drag_selection x y).drawing_area.1 ∧
    0 ≤ (s.drag_selection x y).drawing_area.2.1 ∧
    (s.drag_selection x y).drawing_area.2.2.1 ≤ s.screen_width ∧
    (s.drag_selection x y).drawing_area.2.2.2 ≤ s.screen_height := by
  unfold AppState.drag_selection
  split
  · exact ⟨h1, h2, h3, h4⟩
  · rcases hd : s.drag_start with _ | p
    · simp only [hd]
      exact ⟨h1, h2, h3, h4⟩
    · simp only [hd]
      refine ⟨?_, ?_, ?_, ?_⟩
      · exact clampDelta_lo _ _ _ _ h1 h3
      · exact clampDelta_lo _ _ _ _ h2 h4
      · exact clampDelta_hi _ _ _ _ h1 h3
      · exact clampDelta_hi _ _ _ _ h2 h4

/-- C8 counterexample: a zero-area drag that is not a pure click — release
at (5,10) after pressing at (5,5) — has zero area (zero width), yet
`on_button_release` leaves it at width 0, so the crop that enters drawing
mode is empty; the claimed 1x1 correction does not happen. -/
theorem C8_counterexample :
    on_button_release_box 5 5 5 10 = (5, 5, 5, 10) ∧
    (on_button_release_box 5 5 5 10).2.2.1 - (on_button_release_box 5 5 5 10).1 = 0 := by
  decide

/-- C8 (amended): only a release exactly at the press point (both
coordinates equal) is corrected, to the 1x1 selection
`(sx, sy, sx+1, sy+1)`; a zero-area selection that is degenerate in just
one axis is not corrected and enters drawing mode with an empty crop. -/
theorem C8_click_nudged_to_1x1 (sx sy ex ey : ℤ) (hx : ex = sx) (hy : ey = sy) :
    on_button_release_box sx sy ex ey = (sx, sy, sx + 1, sy + 1) := by
  rw [hx, hy]
  have h1 : min sx (sx + 1) = sx := min_eq_left (by omega)
  have h2 : min sy (sy + 1) = sy := min_eq_left (by omega)
  have h3 : max sx (sx + 1) = sx + 1 := max_eq_right (by omega)
  have h4 : max sy (sy + 1) = sy + 1 := max_eq_right (by omega)
  simp [on_button_release_box, h1, h2, h3, h4]

/-- C8 witness: a click at (7,9) is nudged to the 1x1 box (7,9)-(8,10). -/
theorem C8_witness : on_button_release_box 7 9 7 9 = (7, 9, 7 + 1, 9 + 1) :=
  C8_click_nudged_to_1x1 7 9 7 9 rfl rfl

/-- C9: when a live text entry loses focus, a `TextCommand` is committed
exactly when the final text is non-empty; with empty text both stacks are
left unchanged and the edit is discarded silently. -/
theorem C9_empty_text_discarded (s : AppState) (e : TextEntry)
    (h : s.text_entry = some e) :
    (e.content = "" →
      s.end_text_entry.undo_stack = s.undo_stack ∧
      s.end_text_entry.redo_stack = s.redo_stack) ∧
    (e.content ≠ "" →
      s.end_text_entry.undo_stack = s.undo_stack ++
        [Cmd.text ⟨e.content, e.x, e.y, s.current_color, s.font_size,
          e.width, e.height, some s.canvas.nextId⟩]) := by
  constructor
  · intro hc
    simp only [AppState.end_text_entry, h]
    rw [if_neg (by simp [hc])]
    exact ⟨rfl, rfl⟩
  · intro hc
    simp only [AppState.end_text_entry, h]
    rw [if_pos hc]
    simp [AppState.commit, TextCmd.executeOn, Canvas.createItem]

/-- C9 witness: losing focus on an empty text box over the demo session
leaves both stacks unchanged. -/
theorem C9_witness :
    (AppState.end_text_entry
        { demoState with text_entry := some ⟨30, 40, 60, 20, ""⟩ }).undo_stack =
      ({ demoState with text_entry := some ⟨30, 40, 60, 20, ""⟩ } : AppState).undo_stack ∧
    (AppState.end_text_entry
        { demoState with text_entry := some ⟨30, 40, 60, 20, ""⟩ }).redo_stack =
      ({ demoState with text_entry := some ⟨30, 40, 60, 20, ""⟩ } : AppState).redo_stack :=
  (C9_empty_text_discarded _ ⟨30, 40, 60, 20, ""⟩ rfl).1 rfl

/-- C4 counterexample: two sessions with identical captured image, drawing
area and committed commands, but different current annotation colors,
flatten to different bitmaps — the 1-px border of the export is drawn in
`current_color`, which is session state outside the three claimed
inputs. -/
theorem C4_counterexample :
    demoState.full_screenshot = demoStateBlue.full_screenshot ∧
    demoState.drawing_area = demoStateBlue.drawing_area ∧
    demoState.undo_stack = demoStateBlue.undo_stack ∧
    demoState.copy_to_clipboard T0 ≠ demoStateBlue.copy_to_clipboard T0 := by
  refine ⟨rfl, rfl, rfl, ?_⟩
  intro h
  simp [AppState.copy_to_clipboard, demoState, demoStateBlue] at h

/-- C4 (amended): the flatten step of `copy_to_clipboard` is a pure
function of the captured image, the drawing-area rectangle, the committed
commands, the current annotation color and the drawing-mode flag: two
sessions agreeing on these five produce identical export bitmaps no
matter how the rest of the session state differs. -/
theorem C4_flatten_pure_function (T : DirTrig) (s s' : AppState)
    (hm : s.is_drawing_mode = s'.is_drawing_mode)
    (hi : s.full_screenshot = s'.full_screenshot)
    (ha : s.drawing_area = s'.drawing_area)
    (hc : s.undo_stack = s'.undo_stack)
    (hcol : s.current_color = s'.current_color) :
    s.copy_to_clipboard T = s'.copy_to_clipboard T := by
  unfold AppState.copy_to_clipboard
  rw [hm, hi, ha, hc, hcol]

/-- C4 witness: the demo session and a session differing in tool, pen
width, font size and drag state (but agreeing on the five inputs) export
the same bitmap. -/
theorem C4_witness :
    demoState.copy_to_clipboard T0 = demoStateOther.copy_to_clipboard T0 :=
  C4_flatten_pure_function T0 demoState demoStateOther rfl rfl rfl rfl rfl

/-- Direction cosine of the horizontal stroke (0,0) to (100,0). -/
theorem dirCos_horiz : dirCos 100 0 = 1 := by
  unfold dirCos
  rw [show ((100:ℝ)^2 + 0^2) = 100^2 by norm_num,
    Real.sqrt_sq (by norm_num : (0:ℝ) ≤ 100)]
  norm_num

/-- Direction sine of the horizontal stroke (0,0) to (100,0). -/
theorem dirSin_horiz : dirSin 100 0 = 0 := by
  unfold dirSin
  norm_num

/-- C5 counterexample: for p1=(0,0), p2=(100,0), width 2, the
committed-command renderer `DrawCommand.execute` ends the shaft at
(93.6, 0) — it shortens the shaft by `0.8 · head length` — not at the
claimed (92, 0). -/
theorem C5_counterexample : (commandArrowShaft 0 0 100 0 2).2 ≠ ((92:ℝ), 0) := by
  have h : (commandArrowShaft 0 0 100 0 2).2 = ((468/5 : ℝ), 0) := by
    simp only [commandArrowShaft, arrowHeadSize]
    norm_num [dirCos_horiz, dirSin_horiz]
  rw [h]
  intro heq
  have := congrArg Prod.fst heq
  norm_num at this

/-- C5 (amended): every renderer uses head length `max(3w, 8)`; the
interactive renderer (`draw_arrow`) shortens the shaft by the full head
length, while the committed-command renderer (`DrawCommand.execute`)
shortens it by `0.8 ×` the head length.  For p1=(0,0), p2=(100,0), w=2
the head length is 8, the interactive shaft ends at (92,0), the committed
shaft at (93.6,0), the head apex is (100,0) and the base corners are
symmetric about the x-axis in both renderers; in general, in both
renderers, the midpoint of the two base corners lies on the shaft line
and the base chord is perpendicular to it. -/
theorem C5_arrow_geometry :
    (∀ w : ℕ, arrowHeadSize w = max (3 * w) 8) ∧
    interactiveArrowShaft 0 0 100 0 2 = ((0, 0), (92, 0)) ∧
    interactiveArrowHead 0 0 100 0 2 = ((100, 0), (92, -4), (92, 4)) ∧
    commandArrowShaft 0 0 100 0 2 = ((0, 0), (468/5, 0)) ∧
    (commandArrowHead 0 0 100 0 2).1 = (100, 0) ∧
    (commandArrowHead 0 0 100 0 2).2.1.1 = (commandArrowHead 0 0 100 0 2).2.2.1 ∧
    (commandArrowHead 0 0 100 0 2).2.1.2 = 4 ∧
    (commandArrowHead 0 0 100 0 2).2.2.2 = -4 ∧
    (∀ x1 y1 x2 y2 : ℝ, ∀ t : ℕ,
      onShaftLine x1 y1 x2 y2
        (((interactiveArrowHead x1 y1 x2 y2 t).2.1.1 +
          (interactiveArrowHead x1 y1 x2 y2 t).2.2.1) / 2)
        (((interactiveArrowHead x1 y1 x2 y2 t).2.1.2 +
          (interactiveArrowHead x1 y1 x2 y2 t).2.2.2) / 2) ∧
      perpToShaft x1 y1 x2 y2
        ((interactiveArrowHead x1 y1 x2 y2 t).2.1.1 -
          (interactiveArrowHead x1 y1 x2 y2 t).2.2.1)
        ((interactiveArrowHead x1 y1 x2 y2 t).2.1.2 -
          (interactiveArrowHead x1 y1 x2 y2 t).2.2.2)) ∧
    (∀ x1 y1 x2 y2 : ℝ, ∀ t : ℕ,
      onShaftLine x1 y1 x2 y2
        (((commandArrowHead x1 y1 x2 y2 t).2.1.1 +
          (commandArrowHead x1 y1 x2 y2 t).2.2.1) / 2)
        (((commandArrowHead x1 y1 x2 y2 t).2.1.2 +
          (commandArrowHead x1 y1 x2 y2 t).2.2.2) / 2) ∧
      perpToShaft x1 y1 x2 y2
        ((commandArrowHead x1 y1 x2 y2 t).2.1.1 -
          (commandArrowHead x1 y1 x2 y2 t).2.2.1)
        ((commandArrowHead x1 y1 x2 y2 t).2.1.2 -
          (commandArrowHead x1 y1 x2 y2 t).2.2.2)) := by
  refine ⟨?_, ?_, ?_, ?_, ?_, ?_, ?_, ?_, ?_, ?_⟩
  · intro w
    unfold arrowHeadSize
    omega
  · simp only [interactiveArrowShaft, arrowHeadSize]
    norm_num [dirCos_horiz, dirSin_horiz]
  · simp only [interactiveArrowHead, arrowHeadSize]
    norm_num [dirCos_horiz, dirSin_horiz]
  · simp only [commandArrowShaft, arrowHeadSize]
    norm_num [dirCos_horiz, dirSin_horiz]
  · simp only [commandArrowHead]
  · simp only [commandArrowHead, dirCosM, dirCosP]
    norm_num [dirCos_horiz, dirSin_horiz]
  · simp only [commandArrowHead, dirSinM, arrowHeadSize]
    norm_num [dirCos_horiz, dirSin_horiz]
  · simp only [commandArrowHead, dirSinP, arrowHeadSize]
    norm_num [dirCos_horiz, dirSin_horiz]
  · intro x1 y1 x2 y2 t
    constructor
    · simp only [interactiveArrowHead, onShaftLine, dirCos, dirSin]
      ring
    · simp only [interactiveArrowHead, perpToShaft, dirCos, dirSin]
      ring
  · intro x1 y1 x2 y2 t
    constructor
    · simp only [commandArrowHead, onShaftLine, dirCosM, dirCosP, dirSinM,
        dirSinP, dirCos, dirSin]
      ring
    · simp only [commandArrowHead, perpToShaft, dirCosM, dirCosP, dirSinM,
        dirSinP, dirCos, dirSin]
      ring

/-- Committing the demo rectangle yields the explicit state `demoCommitted`. -/
theorem demoCommit_eval : demoState.commit T0 demoRectCmd = demoCommitted := by
  decide

/-- Dragging the committed demo session from (70,70) to (120,70) yields the
explicit state `demoDragged`. -/
theorem demoDrag_eval : demoCommitted.drag_selection 120 70 = demoDragged := by
  simp +decide [AppState.drag_selection, demoCommitted, demoDragged, demoState,
    clampDelta, Canvas.setRectCoords, Canvas.mapItem, Canvas.moveTag,
    updateHandles, AppState.update_overlay, Canvas.setTextPos,
    Canvas.setTextContent, ShapeData.translate]
  norm_num

/-- C3: after committing a rectangle at (10,10)-(50,50) and dragging the
drawing area by (50,0), the rendered rectangle sits at (60,10)-(100,50) —
10 px right of the drawing area's left edge (60-50) — but
`copy_to_clipboard` composites it from the untouched stored coordinates
at offset -39-1 = -40 from the crop: `drag_selection` moves the rendered
shapes but never the stored geometry, so the export does not composite
each shape at its on-screen position relative to the drawing area. -/
theorem C3_drag_export_divergence :
    (demoState.commit T0 demoRectCmd).drag_selection 120 70 = demoDragged ∧
    demoDragged.drawing_area = (50, 0, 150, 100) ∧
    demoDragged.canvas.coordsOfRect 11 = some (60, 10, 100, 50) ∧
    demoDragged.undo_stack =
      [Cmd.draw ⟨Tool.rectangle, ShapeRef.one 11, 10, 10, 50, 50, "red", 2⟩] ∧
    demoDragged.copy_to_clipboard T0 =
      some ⟨(102, 102), Img.cropBox (Img.capture 0) 50 0 150 100, (1, 1),
        [ExportPrim.rect 0 0 101 101 "red" 1,
         ExportPrim.rect (-39) 11 1 51 "red" 2]⟩ ∧
    ((60 : ℚ) - 50 ≠ (-39 : ℚ) - 1) := by
  refine ⟨?_, rfl, ?_, rfl, ?_, by norm_num⟩
  · rw [demoCommit_eval]
    exact demoDrag_eval
  · decide
  · simp +decide [AppState.copy_to_clipboard, demoDragged, demoState,
      exportPrimsOf, T0]
    norm_num

/-- Unpacking of the id well-formedness boolean. -/
theorem wf_lt (c : Canvas) (hwf : c.wfIds = true) :
    ∀ it ∈ c.items, it.id < c.nextId := by
  intro it hit
  have := List.all_eq_true.mp hwf it hit
  simpa using this

/-- The items appended past an existing canvas. -/
theorem addedItems_mk_append (m : ℕ) (c : Canvas) (l : List CItem) :
    addedItems c ⟨m, c.items ++ l⟩ = l := by
  simp [addedItems]

/-- Deleting a fresh id removes exactly the freshly appended item. -/
theorem filter_ne_append_single (l : List CItem) (n : ℕ) (it0 : CItem)
    (h : ∀ it ∈ l, it.id ≠ n) (h0 : it0.id = n) :
    (l ++ [it0]).filter (fun it => it.id ≠ n) = l := by
  rw [List.filter_append, filter_id_ne_eq_self l n h]
  simp [h0]

/-- Raising a freshly appended item is a no-op. -/
theorem raise_append (m n : ℕ) (l : List CItem) (it0 : CItem)
    (h : ∀ it ∈ l, it.id ≠ n) (h0 : it0.id = n) :
    Canvas.raiseId ⟨m, l ++ [it0]⟩ n = ⟨m, l ++ [it0]⟩ := by
  simp only [Canvas.raiseId, Canvas.mk.injEq, true_and, List.filter_append]
  have h1 : l.filter (fun it => it.id = n) = [] := by
    rw [List.filter_eq_nil_iff]
    intro it hit
    simpa using h it hit
  have h2 : l.filter (fun it => it.id ≠ n) = l := filter_id_ne_eq_self l n h
  rw [h1, h2]
  simp [h0]

/-- Characterisation of `DrawCommand.execute` on a rectangle command. -/
theorem exec_rect (T : DirTrig) (d : DrawCmd) (c : Canvas)
    (h : d.tool = Tool.rectangle) :
    (Cmd.draw d).executeOn T c =
      (Cmd.draw { d with shape_id := ShapeRef.one c.nextId },
       ⟨c.nextId + 1, c.items ++
         [⟨c.nextId, .rect d.x1 d.y1 d.x2 d.y2 d.color d.thickness, ["drawing"]⟩]⟩) := by
  simp [Cmd.executeOn, DrawCmd.executeOn, h, Canvas.createItem]

/-- Characterisation of `DrawCommand.execute` on an arrow command: shaft
line (shortened by `0.8 · head size` along the direction oracle) then
head polygon, as two freshly created items. -/
theorem exec_arrow (T : DirTrig) (d : DrawCmd) (c : Canvas)
    (h : d.tool = Tool.arrow) :
    (Cmd.draw d).executeOn T c =
      (Cmd.draw { d with shape_id := ShapeRef.many [c.nextId, c.nextId + 1] },
       ⟨c.nextId + 1 + 1, (c.items ++
         [⟨c.nextId,
           .line d.x1 d.y1
             (d.x2 - (max (d.thickness * 3) 8 : ℕ) * (4/5) * T.c (d.x2 - d.x1) (d.y2 - d.y1))
             (d.y2 - (max (d.thickness * 3) 8 : ℕ) * (4/5) * T.s (d.x2 - d.x1) (d.y2 - d.y1))
             d.color d.thickness, ["drawing"]⟩]) ++
         [⟨c.nextId + 1,
           .polygon [(d.x2, d.y2),
             (d.x2 - (max (d.thickness * 3) 8 : ℕ) * T.cm (d.x2 - d.x1) (d.y2 - d.y1),
              d.y2 - (max (d.thickness * 3) 8 : ℕ) * T.sm (d.x2 - d.x1) (d.y2 - d.y1)),
             (d.x2 - (max (d.thickness * 3) 8 : ℕ) * T.cp (d.x2 - d.x1) (d.y2 - d.y1),
              d.y2 - (max (d.thickness * 3) 8 : ℕ) * T.sp (d.x2 - d.x1) (d.y2 - d.y1))]
           d.color (some d.color), ["drawing"]⟩]⟩) := by
  simp [Cmd.executeOn, DrawCmd.executeOn, h, Canvas.createItem]

/-- Characterisation of `TextCommand.execute`. -/
theorem exec_text (T : DirTrig) (t : TextCmd) (c : Canvas) :
    (Cmd.text t).executeOn T c =
      (Cmd.text { t with text_id := some c.nextId },
       Canvas.raiseId
         ⟨c.nextId + 1, c.items ++
           [⟨c.nextId, .textItem t.x t.y t.text t.color t.fontSize t.width,
             ["text", "drawing"]⟩]⟩ c.nextId) := by
  simp [Cmd.executeOn, TextCmd.executeOn, Canvas.createItem]

/-- The appended items of a canvas extension. -/
theorem addedItems_of_items_append (c c' : Canvas) (l : List CItem)
    (h : c'.items = c.items ++ l) : addedItems c c' = l := by
  simp only [addedItems, h]
  exact List.drop_left _ _

/-- The appended items after two consecutive creations. -/
theorem addedItems_cons2 (cX : Canvas) (m : ℕ) (p q : CItem) :
    addedItems cX ⟨m, (cX.items ++ [p]) ++ [q]⟩ = [p, q] := by
  simp only [addedItems, List.append_assoc]
  rw [List.drop_left]
  rfl

/-- C6: for every program-committed command, repeating `execute()` renders
the same visual shape again (same primitive and tags) and stores the new
handle(s) in place of the old; `undo()` removes exactly the items the most
recent `execute()` added, leaving the canvas items as before; and `undo()`
on a never-executed command leaves the canvas unchanged. -/
theorem C6_execute_idempotent_undo_exact (T : DirTrig) (cmd : Cmd) (c : Canvas)
    (hok : cmd.toolOK = true) (hwf : c.wfIds = true)
    (hnone : c.hasTag "None" = false) :
    renderItems (addedItems (cmd.executeOn T c).2
        ((cmd.executeOn T c).1.executeOn T (cmd.executeOn T c).2).2) =
      renderItems (addedItems c (cmd.executeOn T c).2) ∧
    ((cmd.executeOn T c).1.executeOn T (cmd.executeOn T c).2).1.refIds =
      (addedItems (cmd.executeOn T c).2
        ((cmd.executeOn T c).1.executeOn T (cmd.executeOn T c).2).2).map CItem.id ∧
    ((cmd.executeOn T c).1.undoOn (cmd.executeOn T c).2).2.items = c.items ∧
    (cmd.neverExecuted = true → (cmd.undoOn c).2 = c) := by
  have hlt := wf_lt c hwf
  have hd : cmd.neverExecuted = true → (cmd.undoOn c).2 = c := by
    intro h
    cases cmd with
    | draw d =>
      have hsid : d.shape_id = ShapeRef.none := by
        simpa [Cmd.neverExecuted] using h
      simp [Cmd.undoOn, DrawCmd.undoOn, hsid, deleteTag_of_not_hasTag c "None" hnone]
    | text t =>
      have htid : t.text_id = Option.none := by
        simpa [Cmd.neverExecuted] using h
      simp [Cmd.undoOn, TextCmd.undoOn, htid]
  cases cmd with
  | draw d =>
    have hok' : d.tool = Tool.rectangle ∨ d.tool = Tool.arrow := by
      simpa [Cmd.toolOK] using hok
    rcases hok' with htool | htool
    · rw [exec_rect T d c htool, exec_rect T _ _ (by simpa using htool)]
      refine ⟨?_, ?_, ?_, hd⟩
      · rw [addedItems_of_items_append _ _ _ rfl, addedItems_of_items_append _ _ _ rfl]
        simp [renderItems]
      · rw [addedItems_of_items_append _ _ _ rfl]
        simp [Cmd.refIds]
      · simp only [Cmd.undoOn, DrawCmd.undoOn, Canvas.deleteId]
        exact filter_ne_append_single c.items c.nextId _
          (fun it hit => Nat.ne_of_lt (hlt it hit)) rfl
    · rw [exec_arrow T d c htool, exec_arrow T _ _ (by simpa using htool)]
      have h1 : c.nextId + 1 ≠ c.nextId := by omega
      have h2 : ∀ it ∈ c.items, it.id ≠ c.nextId :=
        fun it hit => Nat.ne_of_lt (hlt it hit)
      have h3 : ∀ it ∈ c.items, it.id ≠ c.nextId + 1 := by
        intro it hit
        have := hlt it hit
        omega
      refine ⟨?_, ?_, ?_, hd⟩
      · rw [addedItems_cons2, addedItems_cons2]
        simp [renderItems]
      · rw [addedItems_cons2]
        simp [Cmd.refIds]
      · simp only [Cmd.undoOn, DrawCmd.undoOn, List.foldl, Canvas.deleteId]
        simp only [List.filter_append]
        simp [h1]
        intro a ha
        exact ⟨h3 a ha, h2 a ha⟩
  | text t =>
    have hne1 : ∀ it ∈ c.items, it.id ≠ c.nextId :=
      fun it hit => Nat.ne_of_lt (hlt it hit)
    have hne2 : ∀ it ∈ c.items ++
        [⟨c.nextId, .textItem t.x t.y t.text t.color t.fontSize t.width,
          ["text", "drawing"]⟩], it.id ≠ c.nextId + 1 := by
      intro it hit
      rcases List.mem_append.mp hit with h | h
      · have := hlt it h
        omega
      · simp at h
        subst h
        show c.nextId ≠ c.nextId + 1
        omega
    have e1 : (Cmd.text t).executeOn T c =
        (Cmd.text ⟨t.text, t.x, t.y, t.color, t.fontSize, t.width, t.height,
           some c.nextId⟩,
         ⟨c.nextId + 1, c.items ++
           [⟨c.nextId, .textItem t.x t.y t.text t.color t.fontSize t.width,
             ["text", "drawing"]⟩]⟩) := by
      rw [exec_text T t c, raise_append _ _ _ _ hne1 rfl]
    have e2 : (Cmd.text ⟨t.text, t.x, t.y, t.color, t.fontSize, t.width, t.height,
          some c.nextId⟩).executeOn T
        (⟨c.nextId + 1, c.items ++
           [⟨c.nextId, .textItem t.x t.y t.text t.color t.fontSize t.width,
             ["text", "drawing"]⟩]⟩ : Canvas) =
        (Cmd.text ⟨t.text, t.x, t.y, t.color, t.fontSize, t.width, t.height,
           some (c.nextId + 1)⟩,
         ⟨c.nextId + 1 + 1, (c.items ++
           [⟨c.nextId, .textItem t.x t.y t.text t.color t.fontSize t.width,
             ["text", "drawing"]⟩]) ++
           [⟨c.nextId + 1, .textItem t.x t.y t.text t.color t.fontSize t.width,
             ["text", "drawing"]⟩]⟩) := by
      rw [exec_text T _ _, raise_append _ _ _ _ hne2 rfl]
    simp only [e1, e2]
    refine ⟨?_, ?_, ?_, hd⟩
    · rw [addedItems_of_items_append _ _ _ rfl, addedItems_of_items_append _ _ _ rfl]
      simp [renderItems]
    · rw [addedItems_of_items_append _ _ _ rfl]
      simp [Cmd.refIds]
    · simp only [Cmd.undoOn, TextCmd.undoOn, Canvas.deleteId]
      exact filter_ne_append_single c.items c.nextId _ hne1 rfl

/-- C6 witness: the law instantiated on the demo rectangle command over
the demo canvas. -/
theorem C6_witness :
    renderItems (addedItems (demoRectCmd.executeOn T0 demoCanvas).2
        ((demoRectCmd.executeOn T0 demoCanvas).1.executeOn T0
          (demoRectCmd.executeOn T0 demoCanvas).2).2) =
      renderItems (addedItems demoCanvas (demoRectCmd.executeOn T0 demoCanvas).2) ∧
    ((demoRectCmd.executeOn T0 demoCanvas).1.executeOn T0
        (demoRectCmd.executeOn T0 demoCanvas).2).1.refIds =
      (addedItems (demoRectCmd.executeOn T0 demoCanvas).2
        ((demoRectCmd.executeOn T0 demoCanvas).1.executeOn T0
          (demoRectCmd.executeOn T0 demoCanvas).2).2).map CItem.id ∧
    ((demoRectCmd.executeOn T0 demoCanvas).1.undoOn
        (demoRectCmd.executeOn T0 demoCanvas).2).2.items = demoCanvas.items ∧
    (demoRectCmd.neverExecuted = true →
      (demoRectCmd.undoOn demoCanvas).2 = demoCanvas) :=
  C6_execute_idempotent_undo_exact T0 demoRectCmd demoCanvas (by decide)
    (by decide) (by decide)

/-- `DrawCommand.execute` on a rectangle, at the command level. -/
theorem drawexec_rect (T : DirTrig) (d : DrawCmd) (c : Canvas)
    (h : d.tool = Tool.rectangle) :
    d.executeOn T c =
      ({ d with shape_id := ShapeRef.one c.nextId },
       ⟨c.nextId + 1, c.items ++
         [⟨c.nextId, .rect d.x1 d.y1 d.x2 d.y2 d.color d.thickness, ["drawing"]⟩]⟩) := by
  simp [DrawCmd.executeOn, h, Canvas.createItem]

/-- `DrawCommand.execute` on an arrow, at the command level. -/
theorem drawexec_arrow (T : DirTrig) (d : DrawCmd) (c : Canvas)
    (h : d.tool = Tool.arrow) :
    d.executeOn T c =
      ({ d with shape_id := ShapeRef.many [c.nextId, c.nextId + 1] },
       ⟨c.nextId + 1 + 1, (c.items ++
         [⟨c.nextId,
           .line d.x1 d.y1
             (d.x2 - (max (d.thickness * 3) 8 : ℕ) * (4/5) * T.c (d.x2 - d.x1) (d.y2 - d.y1))
             (d.y2 - (max (d.thickness * 3) 8 : ℕ) * (4/5) * T.s (d.x2 - d.x1) (d.y2 - d.y1))
             d.color d.thickness, ["drawing"]⟩]) ++
         [⟨c.nextId + 1,
           .polygon [(d.x2, d.y2),
             (d.x2 - (max (d.thickness * 3) 8 : ℕ) * T.cm (d.x2 - d.x1) (d.y2 - d.y1),
              d.y2 - (max (d.thickness * 3) 8 : ℕ) * T.sm (d.x2 - d.x1) (d.y2 - d.y1)),
             (d.x2 - (max (d.thickness * 3) 8 : ℕ) * T.cp (d.x2 - d.x1) (d.y2 - d.y1),
              d.y2 - (max (d.thickness * 3) 8 : ℕ) * T.sp (d.x2 - d.x1) (d.y2 - d.y1))]
           d.color (some d.color), ["drawing"]⟩]⟩) := by
  simp [DrawCmd.executeOn, h, Canvas.createItem]

/-- `undo` on a state whose undo stack ends in `cmd`. -/
theorem undo_char (s : AppState) (u : List Cmd) (cmd : Cmd)
    (h : s.undo_stack = u ++ [cmd]) :
    s.undo = { s with
      canvas := (cmd.undoOn s.canvas).2.deleteTag "temp_shape",
      undo_stack := u,
      redo_stack := s.redo_stack ++ [(cmd.undoOn s.canvas).1],
      start_pos := Option.none } := by
  unfold AppState.undo
  rw [h, List.getLast?_concat, List.dropLast_concat]

/-- `redo` on a state whose redo stack ends in `cmd`. -/
theorem redo_char (T : DirTrig) (s : AppState) (r : List Cmd) (cmd : Cmd)
    (h : s.redo_stack = r ++ [cmd]) :
    s.redo T = { s with
      canvas := (cmd.executeOn T s.canvas).2.deleteTag "temp_shape",
      undo_stack := s.undo_stack ++ [(cmd.executeOn T s.canvas).1],
      redo_stack := r,
      start_pos := Option.none } := by
  unfold AppState.redo
  rw [h, List.getLast?_concat, List.dropLast_concat]

/-- The committed state for a rectangle command, on a well-formed canvas
with no temporary preview present. -/
theorem commit_rect_char (T : DirTrig) (s : AppState) (d : DrawCmd)
    (htool : d.tool = Tool.rectangle) (hwf : s.canvas.wfIds = true)
    (htmp : s.canvas.hasTag "temp_shape" = false) :
    s.commit T (Cmd.draw d) = { s with
      canvas := ⟨s.canvas.nextId + 1, s.canvas.items ++
        [⟨s.canvas.nextId, .rect d.x1 d.y1 d.x2 d.y2 d.color d.thickness,
          ["drawing"]⟩]⟩,
      undo_stack := s.undo_stack ++
        [Cmd.draw { d with shape_id := ShapeRef.one s.canvas.nextId }],
      redo_stack := [],
      start_pos := Option.none } := by
  have hlt := wf_lt s.canvas hwf
  simp only [AppState.commit, deleteTag_of_not_hasTag _ _ htmp,
    drawexec_rect T d s.canvas htool, Canvas.addtagRef]
  rw [addtagId_noop _ _ _ (by
    intro it hit
    rcases List.mem_append.mp hit with h | h
    · intro hid
      exact absurd hid (Nat.ne_of_lt (hlt it h))
    · simp at h
      subst h
      simp)]

/-- Re-adding a tag over a list of ids is a no-op when every targeted item
already carries it. -/
theorem foldl_addtag_noop (t : Tag) (l : List ℕ) (c : Canvas)
    (h : ∀ it ∈ c.items, ∀ i ∈ l, it.id = i → t ∈ it.tags) :
    l.foldl (fun acc i => acc.addtagId t i) c = c := by
  induction l generalizing c with
  | nil => rfl
  | cons i rest ih =>
    simp only [List.foldl]
    rw [addtagId_noop c t i (fun it hit hid => h it hit i (by simp) hid)]
    exact ih c (fun it hit j hj => h it hit j (by simp [hj]))

/-- The committed state for an arrow command. -/
theorem commit_arrow_char (T : DirTrig) (s : AppState) (d : DrawCmd)
    (htool : d.tool = Tool.arrow) (hwf : s.canvas.wfIds = true)
    (htmp : s.canvas.hasTag "temp_shape" = false) :
    s.commit T (Cmd.draw d) = { s with
      canvas := ⟨s.canvas.nextId + 1 + 1, (s.canvas.items ++
        [⟨s.canvas.nextId,
          .line d.x1 d.y1
            (d.x2 - (max (d.thickness * 3) 8 : ℕ) * (4/5) * T.c (d.x2 - d.x1) (d.y2 - d.y1))
            (d.y2 - (max (d.thickness * 3) 8 : ℕ) * (4/5) * T.s (d.x2 - d.x1) (d.y2 - d.y1))
            d.color d.thickness, ["drawing"]⟩]) ++
        [⟨s.canvas.nextId + 1,
          .polygon [(d.x2, d.y2),
            (d.x2 - (max (d.thickness * 3) 8 : ℕ) * T.cm (d.x2 - d.x1) (d.y2 - d.y1),
             d.y2 - (max (d.thickness * 3) 8 : ℕ) * T.sm (d.x2 - d.x1) (d.y2 - d.y1)),
            (d.x2 - (max (d.thickness * 3) 8 : ℕ) * T.cp (d.x2 - d.x1) (d.y2 - d.y1),
             d.y2 - (max (d.thickness * 3) 8 : ℕ) * T.sp (d.x2 - d.x1) (d.y2 - d.y1))]
          d.color (some d.color), ["drawing"]⟩]⟩,
      undo_stack := s.undo_stack ++
        [Cmd.draw { d with
          shape_id := ShapeRef.many [s.canvas.nextId, s.canvas.nextId + 1] }],
      redo_stack := [],
      start_pos := Option.none } := by
  have hlt := wf_lt s.canvas hwf
  simp only [AppState.commit, deleteTag_of_not_hasTag _ _ htmp,
    drawexec_arrow T d s.canvas htool, Canvas.addtagRef]
  rw [foldl_addtag_noop _ _ _ (by
    intro it hit i hi hid
    rcases List.mem_append.mp hit with h | h
    · rcases List.mem_append.mp h with h' | h'
      · exfalso
        have := hlt it h'
        simp at hi
        rcases hi with rfl | rfl <;> omega
      · simp at h'
        subst h'
        simp
    · simp at h
      subst h
      simp)]

/-- The committed state for a text command. -/
theorem commit_text_char (T : DirTrig) (s : AppState) (t : TextCmd)
    (hwf : s.canvas.wfIds = true) :
    s.commit T (Cmd.text t) = { s with
      canvas := ⟨s.canvas.nextId + 1,
        (s.canvas.items.filter (fun it => ¬ "text_box" ∈ it.tags)) ++
        [⟨s.canvas.nextId, .textItem t.x t.y t.text t.color t.fontSize t.width,
          ["text", "drawing"]⟩]⟩,
      undo_stack := s.undo_stack ++
        [Cmd.text { t with text_id := some s.canvas.nextId }],
      redo_stack := [],
      text_entry := Option.none } := by
  have hlt := wf_lt s.canvas hwf
  simp only [AppState.commit, TextCmd.executeOn, Canvas.createItem]
  rw [raise_append _ _ _ _ (fun it hit => Nat.ne_of_lt (hlt it hit)) rfl]
  simp only [Canvas.deleteTag, List.filter_append]
  simp

/-- Deleting the two fresh arrow handles removes exactly the two appended
items. -/
theorem filter2_ne_append2 (l : List CItem) (n : ℕ) (a b : CItem)
    (hn : ∀ it ∈ l, it.id ≠ n) (hn2 : ∀ it ∈ l, it.id ≠ n + 1)
    (ha : a.id = n) (hb : b.id = n + 1) :
    (((l ++ [a]) ++ [b]).filter (fun it => it.id ≠ n)).filter
      (fun it => it.id ≠ n + 1) = l := by
  have e1 : ((l ++ [a]) ++ [b]).filter (fun it => it.id ≠ n) = l ++ [b] := by
    rw [List.filter_append, List.filter_append, filter_id_ne_eq_self l n hn]
    simp [ha, hb]
  rw [e1, List.filter_append, filter_id_ne_eq_self l _ hn2]
  simp [hb]

/-- C1: for every command committed on a well-formed drawing-mode scene
(no temporary preview pending), undo() followed by redo() restores the
rendered shape set and the stored geometry of every command exactly; the
commit leaves redo empty, undo() removes the committed shape from the
render (the canvas items are exactly the pre-commit items after cleanup)
and moves the command (undo stack shrinks by one, redo stack holds one
entry), and redo() restores it (undo stack back to committed size, redo
stack empty). -/
theorem C1_undo_redo_inverse (T : DirTrig) (s : AppState) (cmd : Cmd)
    (hok : cmd.toolOK = true)
    (hwf : s.canvas.wfIds = true)
    (htmp : s.canvas.hasTag "temp_shape" = false) :
    ((s.commit T cmd).undo.redo T).canvas.render = (s.commit T cmd).canvas.render ∧
    ((s.commit T cmd).undo.redo T).undo_stack.map Cmd.geom =
      (s.commit T cmd).undo_stack.map Cmd.geom ∧
    (s.commit T cmd).redo_stack = [] ∧
    ((s.commit T cmd).undo.redo T).redo_stack = [] ∧
    (s.commit T cmd).undo_stack.length = s.undo_stack.length + 1 ∧
    (s.commit T cmd).undo.undo_stack.length = s.undo_stack.length ∧
    (s.commit T cmd).undo.redo_stack.length = 1 ∧
    ((s.commit T cmd).undo.redo T).undo_stack.length = s.undo_stack.length + 1 ∧
    (s.commit T cmd).undo.canvas.items = (commitCleanup cmd s.canvas).items := by
  have hlt := wf_lt s.canvas hwf
  have hne : ∀ it ∈ s.canvas.items, it.id ≠ s.canvas.nextId :=
    fun it hit => Nat.ne_of_lt (hlt it hit)
  cases cmd with
  | draw d =>
    have hok' : d.tool = Tool.rectangle ∨ d.tool = Tool.arrow := by
      simpa [Cmd.toolOK] using hok
    rcases hok' with htool | htool
    · rw [commit_rect_char T s d htool hwf htmp]
      have hu : ({ s with
          canvas := ⟨s.canvas.nextId + 1, s.canvas.items ++
            [⟨s.canvas.nextId, .rect d.x1 d.y1 d.x2 d.y2 d.color d.thickness,
              ["drawing"]⟩]⟩,
          undo_stack := s.undo_stack ++
            [Cmd.draw { d with shape_id := ShapeRef.one s.canvas.nextId }],
          redo_stack := [],
          start_pos := Option.none } : AppState).undo =
        { s with
          canvas := ⟨s.canvas.nextId + 1, s.canvas.items⟩,
          undo_stack := s.undo_stack,
          redo_stack := [Cmd.draw { d with shape_id := ShapeRef.one s.canvas.nextId }],
          start_pos := Option.none } := by
        rw [undo_char _ s.undo_stack _ rfl]
        simp only [Cmd.undoOn, DrawCmd.undoOn, Canvas.deleteId]
        rw [filter_ne_append_single s.canvas.items s.canvas.nextId _ hne rfl,
          deleteTag_of_not_hasTag ⟨s.canvas.nextId + 1, s.canvas.items⟩ _ htmp]
        simp
      rw [hu]
      have hr : ({ s with
          canvas := ⟨s.canvas.nextId + 1, s.canvas.items⟩,
          undo_stack := s.undo_stack,
          redo_stack := [Cmd.draw { d with shape_id := ShapeRef.one s.canvas.nextId }],
          start_pos := Option.none } : AppState).redo T =
        { s with
          canvas := ⟨s.canvas.nextId + 1 + 1, s.canvas.items ++
            [⟨s.canvas.nextId + 1, .rect d.x1 d.y1 d.x2 d.y2 d.color d.thickness,
              ["drawing"]⟩]⟩,
          undo_stack := s.undo_stack ++
            [Cmd.draw { d with shape_id := ShapeRef.one (s.canvas.nextId + 1) }],
          redo_stack := [],
          start_pos := Option.none } := by
        rw [redo_char T _ [] _ rfl]
        simp only [exec_rect T { d with shape_id := ShapeRef.one s.canvas.nextId }
          ⟨s.canvas.nextId + 1, s.canvas.items⟩ htool]
        have htmp2 : (⟨s.canvas.nextId + 1 + 1, s.canvas.items ++
            [⟨s.canvas.nextId + 1, .rect d.x1 d.y1 d.x2 d.y2 d.color d.thickness,
              ["drawing"]⟩]⟩ : Canvas).hasTag "temp_shape" = false := by
          rw [hasTag_false_iff]
          intro it hit
          rcases List.mem_append.mp hit with h | h
          · exact (hasTag_false_iff _ _).mp htmp it h
          · simp at h
            subst h
            simp
        rw [deleteTag_of_not_hasTag _ _ htmp2]
      rw [hr]
      refine ⟨?_, ?_, rfl, rfl, by simp, by simp, by simp, by simp, ?_⟩
      · simp [Canvas.render, renderItems]
      · simp [Cmd.geom]
      · simp [commitCleanup, deleteTag_of_not_hasTag _ _ htmp]
    · rw [commit_arrow_char T s d htool hwf htmp]
      have hne2 : ∀ it ∈ s.canvas.items, it.id ≠ s.canvas.nextId + 1 := by
        intro it hit
        have := hlt it hit
        omega
      have hu : ({ s with
          canvas := ⟨s.canvas.nextId + 1 + 1, (s.canvas.items ++
            [⟨s.canvas.nextId,
              .line d.x1 d.y1
                (d.x2 - (max (d.thickness * 3) 8 : ℕ) * (4/5) * T.c (d.x2 - d.x1) (d.y2 - d.y1))
                (d.y2 - (max (d.thickness * 3) 8 : ℕ) * (4/5) * T.s (d.x2 - d.x1) (d.y2 - d.y1))
                d.color d.thickness, ["drawing"]⟩]) ++
            [⟨s.canvas.nextId + 1,
              .polygon [(d.x2, d.y2),
                (d.x2 - (max (d.thickness * 3) 8 : ℕ) * T.cm (d.x2 - d.x1) (d.y2 - d.y1),
                 d.y2 - (max (d.thickness * 3) 8 : ℕ) * T.sm (d.x2 - d.x1) (d.y2 - d.y1)),
                (d.x2 - (max (d.thickness * 3) 8 : ℕ) * T.cp (d.x2 - d.x1) (d.y2 - d.y1),
                 d.y2 - (max (d.thickness * 3) 8 : ℕ) * T.sp (d.x2 - d.x1) (d.y2 - d.y1))]
              d.color (some d.color), ["drawing"]⟩]⟩,
          undo_stack := s.undo_stack ++
            [Cmd.draw { d with
              shape_id := ShapeRef.many [s.canvas.nextId, s.canvas.nextId + 1] }],
          redo_stack := [],
          start_pos := Option.none } : AppState).undo =
        { s with
          canvas := ⟨s.canvas.nextId + 1 + 1, s.canvas.items⟩,
          undo_stack := s.undo_stack,
          redo_stack := [Cmd.draw { d with
            shape_id := ShapeRef.many [s.canvas.nextId, s.canvas.nextId + 1] }],
          start_pos := Option.none } := by
        rw [undo_char _ s.undo_stack _ rfl]
        simp only [Cmd.undoOn, DrawCmd.undoOn, List.foldl, Canvas.deleteId]
        rw [filter2_ne_append2 s.canvas.items s.canvas.nextId _ _ hne hne2 rfl rfl,
          deleteTag_of_not_hasTag ⟨s.canvas.nextId + 1 + 1, s.canvas.items⟩ _ htmp]
        simp
      rw [hu]
      have hr : ({ s with
          canvas := ⟨s.canvas.nextId + 1 + 1, s.canvas.items⟩,
          undo_stack := s.undo_stack,
          redo_stack := [Cmd.draw { d with
            shape_id := ShapeRef.many [s.canvas.nextId, s.canvas.nextId + 1] }],
          start_pos := Option.none } : AppState).redo T =
        { s with
          canvas := ⟨s.canvas.nextId + 1 + 1 + 1 + 1, (s.canvas.items ++
            [⟨s.canvas.nextId + 1 + 1,
              .line d.x1 d.y1
                (d.x2 - (max (d.thickness * 3) 8 : ℕ) * (4/5) * T.c (d.x2 - d.x1) (d.y2 - d.y1))
                (d.y2 - (max (d.thickness * 3) 8 : ℕ) * (4/5) * T.s (d.x2 - d.x1) (d.y2 - d.y1))
                d.color d.thickness, ["drawing"]⟩]) ++
            [⟨s.canvas.nextId + 1 + 1 + 1,
              .polygon [(d.x2, d.y2),
                (d.x2 - (max (d.thickness * 3) 8 : ℕ) * T.cm (d.x2 - d.x1) (d.y2 - d.y1),
                 d.y2 - (max (d.thickness * 3) 8 : ℕ) * T.sm (d.x2 - d.x1) (d.y2 - d.y1)),
                (d.x2 - (max (d.thickness * 3) 8 : ℕ) * T.cp (d.x2 - d.x1) (d.y2 - d.y1),
                 d.y2 - (max (d.thickness * 3) 8 : ℕ) * T.sp (d.x2 - d.x1) (d.y2 - d.y1))]
              d.color (some d.color), ["drawing"]⟩]⟩,
          undo_stack := s.undo_stack ++
            [Cmd.draw { d with
              shape_id := ShapeRef.many
                [s.canvas.nextId + 1 + 1, s.canvas.nextId + 1 + 1 + 1] }],
          redo_stack := [],
          start_pos := Option.none } := by
        rw [redo_char T _ [] _ rfl]
        simp only [exec_arrow T
          { d with shape_id := ShapeRef.many [s.canvas.nextId, s.canvas.nextId + 1] }
          ⟨s.canvas.nextId + 1 + 1, s.canvas.items⟩ htool]
        have htmp2 : (⟨s.canvas.nextId + 1 + 1 + 1 + 1, (s.canvas.items ++
            [⟨s.canvas.nextId + 1 + 1,
              .line d.x1 d.y1
                (d.x2 - (max (d.thickness * 3) 8 : ℕ) * (4/5) * T.c (d.x2 - d.x1) (d.y2 - d.y1))
                (d.y2 - (max (d.thickness * 3) 8 : ℕ) * (4/5) * T.s (d.x2 - d.x1) (d.y2 - d.y1))
                d.color d.thickness, ["drawing"]⟩]) ++
            [⟨s.canvas.nextId + 1 + 1 + 1,
              .polygon [(d.x2, d.y2),
                (d.x2 - (max (d.thickness * 3) 8 : ℕ) * T.cm (d.x2 - d.x1) (d.y2 - d.y1),
                 d.y2 - (max (d.thickness * 3) 8 : ℕ) * T.sm (d.x2 - d.x1) (d.y2 - d.y1)),
                (d.x2 - (max (d.thickness * 3) 8 : ℕ) * T.cp (d.x2 - d.x1) (d.y2 - d.y1),
                 d.y2 - (max (d.thickness * 3) 8 : ℕ) * T.sp (d.x2 - d.x1) (d.y2 - d.y1))]
              d.color (some d.color), ["drawing"]⟩]⟩ : Canvas).hasTag
            "temp_shape" = false := by
          rw [hasTag_false_iff]
          intro it hit
          rcases List.mem_append.mp hit with h | h
          · rcases List.mem_append.mp h with h' | h'
            · exact (hasTag_false_iff _ _).mp htmp it h'
            · simp at h'
              subst h'
              simp
          · simp at h
            subst h
            simp
        rw [deleteTag_of_not_hasTag _ _ htmp2]
      rw [hr]
      refine ⟨?_, ?_, rfl, rfl, by simp, by simp, by simp, by simp, ?_⟩
      · simp [Canvas.render, renderItems]
      · simp [Cmd.geom]
      · simp [commitCleanup, deleteTag_of_not_hasTag _ _ htmp]
  | text t =>
    rw [commit_text_char T s t hwf]
    have hD : ∀ it ∈ s.canvas.items.filter (fun it => ¬ "text_box" ∈ it.tags),
        it ∈ s.canvas.items := fun it hit => List.mem_of_mem_filter hit
    have hneD : ∀ it ∈ s.canvas.items.filter (fun it => ¬ "text_box" ∈ it.tags),
        it.id ≠ s.canvas.nextId := fun it hit => hne it (hD it hit)
    have hneD2 : ∀ it ∈ s.canvas.items.filter (fun it => ¬ "text_box" ∈ it.tags),
        it.id ≠ s.canvas.nextId + 1 := by
      intro it hit
      have := hlt it (hD it hit)
      omega
    have hu : ({ s with
        canvas := ⟨s.canvas.nextId + 1,
          (s.canvas.items.filter (fun it => ¬ "text_box" ∈ it.tags)) ++
          [⟨s.canvas.nextId, .textItem t.x t.y t.text t.color t.fontSize t.width,
            ["text", "drawing"]⟩]⟩,
        undo_stack := s.undo_stack ++
          [Cmd.text { t with text_id := some s.canvas.nextId }],
        redo_stack := [],
        text_entry := Option.none } : AppState).undo =
      { s with
        canvas := ⟨s.canvas.nextId + 1,
          s.canvas.items.filter (fun it => ¬ "text_box" ∈ it.tags)⟩,
        undo_stack := s.undo_stack,
        redo_stack := [Cmd.text { t with text_id := Option.none }],
        start_pos := Option.none,
        text_entry := Option.none } := by
      rw [undo_char _ s.undo_stack _ rfl]
      simp only [Cmd.undoOn, TextCmd.undoOn, Canvas.deleteId]
      have htmpD : (⟨s.canvas.nextId + 1,
          s.canvas.items.filter (fun it => ¬ "text_box" ∈ it.tags)⟩ : Canvas).hasTag
          "temp_shape" = false := by
        rw [hasTag_false_iff]
        intro it hit
        exact (hasTag_false_iff _ _).mp htmp it (hD it hit)
      rw [filter_ne_append_single _ s.canvas.nextId _ hneD rfl,
        deleteTag_of_not_hasTag _ _ htmpD]
      simp
    rw [hu]
    have hr : ({ s with
        canvas := ⟨s.canvas.nextId + 1,
          s.canvas.items.filter (fun it => ¬ "text_box" ∈ it.tags)⟩,
        undo_stack := s.undo_stack,
        redo_stack := [Cmd.text { t with text_id := Option.none }],
        start_pos := Option.none,
        text_entry := Option.none } : AppState).redo T =
      { s with
        canvas := ⟨s.canvas.nextId + 1 + 1,
          (s.canvas.items.filter (fun it => ¬ "text_box" ∈ it.tags)) ++
          [⟨s.canvas.nextId + 1, .textItem t.x t.y t.text t.color t.fontSize t.width,
            ["text", "drawing"]⟩]⟩,
        undo_stack := s.undo_stack ++
          [Cmd.text { t with text_id := some (s.canvas.nextId + 1) }],
        redo_stack := [],
        start_pos := Option.none,
        text_entry := Option.none } := by
      rw [redo_char T _ [] _ rfl]
      rw [exec_text T { t with text_id := Option.none }
        ⟨s.canvas.nextId + 1,
          s.canvas.items.filter (fun it => ¬ "text_box" ∈ it.tags)⟩]
      rw [raise_append _ _ _ _ hneD2 rfl]
      have htmp2 : (⟨s.canvas.nextId + 1 + 1,
          (s.canvas.items.filter (fun it => ¬ "text_box" ∈ it.tags)) ++
          [⟨s.canvas.nextId + 1, .textItem t.x t.y t.text t.color t.fontSize t.width,
            ["text", "drawing"]⟩]⟩ : Canvas).hasTag "temp_shape" = false := by
        rw [hasTag_false_iff]
        intro it hit
        rcases List.mem_append.mp hit with h | h
        · exact (hasTag_false_iff _ _).mp htmp it (hD it h)
        · simp at h
          subst h
          simp
      rw [deleteTag_of_not_hasTag _ _ htmp2]
    rw [hr]
    refine ⟨?_, ?_, rfl, rfl, by simp, by simp, by simp, by simp, ?_⟩
    · simp [Canvas.render, renderItems]
    · simp [Cmd.geom]
    · simp [commitCleanup, Canvas.deleteTag]

/-- C1 witness: the scenario — commit `RectShape((10,10),(50,50), red, 2)`
on the demo session (empty stacks): undo stack reaches size 1, undo()
empties it (redo size 1) and removes the shape, redo() restores render,
geometry and sizes. -/
theorem C1_witness :
    ((demoState.commit T0 demoRectCmd).undo.redo T0).canvas.render =
      (demoState.commit T0 demoRectCmd).canvas.render ∧
    ((demoState.commit T0 demoRectCmd).undo.redo T0).undo_stack.map Cmd.geom =
      (demoState.commit T0 demoRectCmd).undo_stack.map Cmd.geom ∧
    (demoState.commit T0 demoRectCmd).redo_stack = [] ∧
    ((demoState.commit T0 demoRectCmd).undo.redo T0).redo_stack = [] ∧
    (demoState.commit T0 demoRectCmd).undo_stack.length =
      demoState.undo_stack.length + 1 ∧
    (demoState.commit T0 demoRectCmd).undo.undo_stack.length =
      demoState.undo_stack.length ∧
    (demoState.commit T0 demoRectCmd).undo.redo_stack.length = 1 ∧
    ((demoState.commit T0 demoRectCmd).undo.redo T0).undo_stack.length =
      demoState.undo_stack.length + 1 ∧
    (demoState.commit T0 demoRectCmd).undo.canvas.items =
      (commitCleanup demoRectCmd demoState.canvas).items :=
  C1_undo_redo_inverse T0 demoState demoRectCmd (by decide) (by decide) (by decide)

/-- Filtering for annotation items commutes with a chrome update. -/
theorem filter_drawing_map_ui (l : List CItem) (i : ℕ) (f : ShapeData → ShapeData)
    (ids : List ℕ) (hi : i ∈ ids)
    (h : ∀ it ∈ l, "drawing" ∈ it.tags → ¬ it.id ∈ ids) :
    (l.map (fun it => if it.id = i then { it with shape := f it.shape } else it)).filter
        (fun it => "drawing" ∈ it.tags) =
      l.filter (fun it => "drawing" ∈ it.tags) := by
  induction l with
  | nil => rfl
  | cons a rest ih =>
    have ha := h a (by simp)
    have hrest : ∀ it ∈ rest, "drawing" ∈ it.tags → ¬ it.id ∈ ids :=
      fun it hit => h it (by simp [hit])
    simp only [List.map_cons, List.filter_cons]
    by_cases hid : a.id = i
    · have hnd : ¬ "drawing" ∈ a.tags := fun hd => (ha hd) (hid ▸ hi)
      rw [if_pos hid]
      simp only [show ({ a with shape := f a.shape } : CItem).tags = a.tags from rfl]
      simp [hnd, ih hrest]
    · rw [if_neg hid]
      by_cases hd : "drawing" ∈ a.tags <;> simp [hd, ih hrest]

/-- Updating the primitive of a chrome item does not touch the
"drawing"-tagged items. -/
theorem drawingItems_mapItem_ui (cv : Canvas) (i : ℕ) (f : ShapeData → ShapeData)
    (ids : List ℕ) (hi : i ∈ ids)
    (h : ∀ it ∈ cv.items, "drawing" ∈ it.tags → ¬ it.id ∈ ids) :
    drawingItems (cv.mapItem i f) = drawingItems cv := by
  simp only [drawingItems, Canvas.mapItem]
  exact filter_drawing_map_ui cv.items i f ids hi h

/-- `mapItem` changes no item's id or tags, so id/tag facts persist. -/
theorem mapItem_pres_ui (cv : Canvas) (i : ℕ) (f : ShapeData → ShapeData)
    (ids : List ℕ)
    (h : ∀ it ∈ cv.items, "drawing" ∈ it.tags → ¬ it.id ∈ ids) :
    ∀ it ∈ (cv.mapItem i f).items, "drawing" ∈ it.tags → ¬ it.id ∈ ids := by
  intro it hit
  simp only [Canvas.mapItem, List.mem_map] at hit
  obtain ⟨it0, hit0, heq⟩ := hit
  subst heq
  by_cases hid : it0.id = i
  · simp only [if_pos hid]
    intro hd
    have h1 := h it0 (by simpa using hit0) (by simpa using hd)
    simpa [hid] using h1
  · simp only [if_neg hid]
    exact h it0 hit0

/-- A fold of chrome updates does not touch the "drawing"-tagged items. -/
theorem foldl_mapItem_drawing {α : Type} (g : α → ℕ) (F : α → ShapeData → ShapeData)
    (ids : List ℕ) (ps : List α) (cv : Canvas)
    (hg : ∀ p ∈ ps, g p ∈ ids)
    (h : ∀ it ∈ cv.items, "drawing" ∈ it.tags → ¬ it.id ∈ ids) :
    drawingItems (ps.foldl (fun acc p => acc.mapItem (g p) (F p)) cv) = drawingItems cv ∧
    ∀ it ∈ (ps.foldl (fun acc p => acc.mapItem (g p) (F p)) cv).items,
      "drawing" ∈ it.tags → ¬ it.id ∈ ids := by
  induction ps generalizing cv with
  | nil => exact ⟨rfl, h⟩
  | cons p rest ih =>
    simp only [List.foldl]
    have h1 : drawingItems (cv.mapItem (g p) (F p)) = drawingItems cv :=
      drawingItems_mapItem_ui cv (g p) (F p) ids (hg p (by simp)) h
    have h2 := mapItem_pres_ui cv (g p) (F p) ids h
    have h3 := ih (cv.mapItem (g p) (F p)) (fun q hq => hg q (by simp [hq])) h2
    exact ⟨h3.1.trans h1, h3.2⟩

/-- C10: `resize_selection` is frame-preserving on the scene: it leaves
the undo and redo stacks (every committed command's stored coordinates)
and every "drawing"-tagged canvas item (every rendered shape's position)
unchanged; only the selection chrome and the drawing-area rectangle are
modified. -/
theorem C10_resize_frame (s : AppState) (x y : ℚ)
    (hdisj : s.uiDisjoint = true) :
    (s.resize_selection x y).undo_stack = s.undo_stack ∧
    (s.resize_selection x y).redo_stack = s.redo_stack ∧
    drawingItems (s.resize_selection x y).canvas = drawingItems s.canvas := by
  have P0 : ∀ it ∈ s.canvas.items, "drawing" ∈ it.tags → ¬ it.id ∈ s.uiIds := by
    intro it hit hd hmem
    have h1 := List.all_eq_true.mp hdisj it hit
    simp at h1
    rcases h1 with h1 | h1
    · exact h1 hd
    · exact h1 hmem
  have hsel : s.selection_rect ∈ s.uiIds := by simp [AppState.uiIds]
  have hdim : s.dimension_text ∈ s.uiIds := by simp [AppState.uiIds]
  have main : ∀ (x1 y1 x2 y2 mx my : ℚ) (lbl2 : String),
      drawingItems (((s.update_overlay (updateHandles
        (s.canvas.setRectCoords s.selection_rect x1 y1 x2 y2)
        s.resize_handles x1 y1 x2 y2) x1 y1 x2 y2).setTextContent
        s.dimension_text lbl2).setTextPos s.dimension_text mx my) =
      drawingItems s.canvas := by
    intro x1 y1 x2 y2 mx my lbl2
    have e1 : drawingItems (s.canvas.setRectCoords s.selection_rect x1 y1 x2 y2) =
        drawingItems s.canvas :=
      drawingItems_mapItem_ui s.canvas s.selection_rect _ s.uiIds hsel P0
    have p1 : ∀ it ∈ (s.canvas.setRectCoords s.selection_rect x1 y1 x2 y2).items,
        "drawing" ∈ it.tags → ¬ it.id ∈ s.uiIds :=
      mapItem_pres_ui s.canvas s.selection_rect _ s.uiIds P0
    have hgh : ∀ p ∈ List.zip s.resize_handles
        [(x1, y1), (x2, y1), (x2, y2), (x1, y2)], (fun q => q.1) p ∈ s.uiIds := by
      intro p hp
      have := (List.of_mem_zip hp).1
      simp [AppState.uiIds]
      simp at this
      tauto
    have e2p := foldl_mapItem_drawing (fun q => q.1)
      (fun q sh => match sh with
        | ShapeData.rect _ _ _ _ o w =>
          ShapeData.rect (q.2.1 - 5) (q.2.2 - 5) (q.2.1 + 5) (q.2.2 + 5) o w
        | sh => sh)
      s.uiIds (List.zip s.resize_handles [(x1, y1), (x2, y1), (x2, y2), (x1, y2)])
      (s.canvas.setRectCoords s.selection_rect x1 y1 x2 y2) hgh p1
    have e2 : drawingItems (updateHandles
        (s.canvas.setRectCoords s.selection_rect x1 y1 x2 y2)
        s.resize_handles x1 y1 x2 y2) =
        drawingItems (s.canvas.setRectCoords s.selection_rect x1 y1 x2 y2) := e2p.1
    have p2 : ∀ it ∈ (updateHandles
        (s.canvas.setRectCoords s.selection_rect x1 y1 x2 y2)
        s.resize_handles x1 y1 x2 y2).items,
        "drawing" ∈ it.tags → ¬ it.id ∈ s.uiIds := e2p.2
    have hgo : ∀ p ∈ List.zip s.overlay_ids
        [((0:ℚ), (0:ℚ), s.screen_width, y1), (0, y1, x1, y2),
         (x2, y1, s.screen_width, y2), (0, y2, s.screen_width, s.screen_height)],
        (fun q => q.1) p ∈ s.uiIds := by
      intro p hp
      have := (List.of_mem_zip hp).1
      simp [AppState.uiIds]
      simp at this
      tauto
    have e3p := foldl_mapItem_drawing (fun q => q.1)
      (fun q sh => match sh with
        | ShapeData.rect _ _ _ _ o w =>
          ShapeData.rect q.2.1 q.2.2.1 q.2.2.2.1 q.2.2.2.2 o w
        | sh => sh)
      s.uiIds (List.zip s.overlay_ids
        [((0:ℚ), (0:ℚ), s.screen_width, y1), (0, y1, x1, y2),
         (x2, y1, s.screen_width, y2), (0, y2, s.screen_width, s.screen_height)])
      (updateHandles (s.canvas.setRectCoords s.selection_rect x1 y1 x2 y2)
        s.resize_handles x1 y1 x2 y2) hgo p2
    have e4 := drawingItems_mapItem_ui _ s.dimension_text
      (fun sh => match sh with
        | ShapeData.textItem _ _ txt f fs w => ShapeData.textItem ((x1 + x2) / 2) ((y1 + y2) / 2) txt f fs w
        | sh => sh) s.uiIds hdim e3p.2
    have p4 := mapItem_pres_ui _ s.dimension_text
      (fun sh => match sh with
        | ShapeData.textItem _ _ txt f fs w =>
          ShapeData.textItem ((x1 + x2) / 2) ((y1 + y2) / 2) txt f fs w
        | sh => sh) s.uiIds e3p.2
    have e5 := drawingItems_mapItem_ui _ s.dimension_text
      (fun sh => match sh with
        | ShapeData.textItem xx yy _ f fs w =>
          ShapeData.textItem xx yy (dimLabel (x2 - x1) (y2 - y1)) f fs w
        | sh => sh) s.uiIds hdim p4
    have p5 := mapItem_pres_ui _ s.dimension_text
      (fun sh => match sh with
        | ShapeData.textItem xx yy _ f fs w =>
          ShapeData.textItem xx yy (dimLabel (x2 - x1) (y2 - y1)) f fs w
        | sh => sh) s.uiIds p4
    have e6 := drawingItems_mapItem_ui _ s.dimension_text
      (fun sh => match sh with
        | ShapeData.textItem xx yy _ f fs w => ShapeData.textItem xx yy lbl2 f fs w
        | sh => sh) s.uiIds hdim p5
    have p6 := mapItem_pres_ui _ s.dimension_text
      (fun sh => match sh with
        | ShapeData.textItem xx yy _ f fs w => ShapeData.textItem xx yy lbl2 f fs w
        | sh => sh) s.uiIds p5
    have e7 := drawingItems_mapItem_ui _ s.dimension_text
      (fun sh => match sh with
        | ShapeData.textItem _ _ txt f fs w => ShapeData.textItem mx my txt f fs w
        | sh => sh) s.uiIds hdim p6
    exact (((((e7.trans e6).trans e5).trans e4).trans e3p.1).trans e2).trans e1
  unfold AppState.resize_selection
  cases hq : s.canvas.coordsOfRect s.selection_rect with
  | none =>
    simp [hq]
  | some q =>
    simp only [hq]
    refine ⟨?_, ?_, ?_⟩ <;> first
      | trivial
      | exact main _ _ _ _ _ _ _

/-- C10 witness: resizing the committed demo session (bottom-right handle
dragged to (120,80)) leaves the stacks and the rendered rectangle
untouched. -/
theorem C10_witness :
    (AppState.resize_selection { demoCommitted with resizing := some 2 } 120 80).undo_stack =
      ({ demoCommitted with resizing := some 2 } : AppState).undo_stack ∧
    (AppState.resize_selection { demoCommitted with resizing := some 2 } 120 80).redo_stack =
      ({ demoCommitted with resizing := some 2 } : AppState).redo_stack ∧
    drawingItems (AppState.resize_selection
        { demoCommitted with resizing := some 2 } 120 80).canvas =
      drawingItems ({ demoCommitted with resizing := some 2 } : AppState).canvas :=
  C10_resize_frame { demoCommitted with resizing := some 2 } 120 80 (by decide)

/-- C7 witness: the scenario — drawing area (0,0)-(100,100) on a 200x200
screen, pointer dragged from (70,70) to (20,70) (delta (-50,0)): the
resulting drawing area still lies within the screen (its x1 is clamped at
0, not -50). -/
theorem C7_witness :
    0 ≤ (demoState.drag_selection 20 70).drawing_area.1 ∧
    0 ≤ (demoState.drag_selection 20 70).drawing_area.2.1 ∧
    (demoState.drag_selection 20 70).drawing_area.2.2.1 ≤ demoState.screen_width ∧
    (demoState.drag_selection 20 70).drawing_area.2.2.2 ≤ demoState.screen_height :=
  C7_drag_stays_on_screen demoState 20 70 (by norm_num [demoState])
    (by norm_num [demoState]) (by norm_num [demoState]) (by norm_num [demoState])
